import Mathlib

/-!
Shallow embedding of the conversation-orchestration core of the FinApp
ai-server: the advisor router (`ai/ai_chat_selector.py`), the financial
decision tree (`ai/tree_model.py`) and the intake form
(`ai/user_profile_form.py`), together with theorems settling the frozen
claims about them.

Python dictionaries are modelled as association lists, Python `None` /
empty-string truthiness as explicit `Option`/emptiness tests, floats as
rationals (all float arithmetic used by the code — division by 4, `min`
with 1.0 — is exact in binary floating point on the values that occur),
and an uncaught Python exception as an `Option.none` result.
-/

namespace FinApp

/-- Lookup in an association list, modelling Python `d[k]` / `d.get(k)`. -/
def alookup {β : Type} (k : String) : List (String × β) → Option β
  | [] => none
  | (k', v) :: rest => if k' = k then some v else alookup k rest

/-- Insert/overwrite a binding, modelling Python `d[k] = v` (update in
place when the key exists, append otherwise). -/
def ainsert {β : Type} (k : String) (v : β) : List (String × β) → List (String × β)
  | [] => [(k, v)]
  | (k', v') :: rest =>
    if k' = k then (k', v) :: rest else (k', v') :: ainsert k v rest

/-- Lookup with default, modelling Python `d.get(k, default)`. -/
def aget {β : Type} (m : List (String × β)) (k : String) (d : β) : β :=
  (alookup k m).getD d

/-- ASCII lower-casing of one character (Python `str.lower` restricted to
ASCII; every keyword below is already lower-case and the claims' inputs
contain no non-ASCII upper-case letters). -/
def lowerChar (c : Char) : Char :=
  if 65 ≤ c.toNat ∧ c.toNat ≤ 90 then Char.ofNat (c.toNat + 32) else c

/-- Python `message.lower()` (ASCII fragment). -/
def strLower (s : String) : String := ⟨s.data.map lowerChar⟩

/-- `leadMatch n h` is true when `n` is a leading segment of `h`. -/
def leadMatch : List Char → List Char → Bool
  | [], _ => true
  | _ :: _, [] => false
  | a :: as, b :: bs => a == b && leadMatch as bs

/-- `hasSub n h` is true when `n` occurs contiguously inside `h`. -/
def hasSub (n : List Char) : List Char → Bool
  | [] => leadMatch n []
  | c :: rest => leadMatch n (c :: rest) || hasSub n rest

/-- Python `needle in haystack` on strings. -/
def strIn (needle haystack : String) : Bool :=
  hasSub needle.data haystack.data

/-! ## AIChatSelector (`ai/ai_chat_selector.py`) -/

/-- Keyword set for the tax advisor (`_determine_advisor_from_message`). -/
def tax_keywords : List String :=
  ["podatek", "podatki", "pit", "vat", "cit", "zeznanie", "zwrot",
   "urząd skarbowy", "odliczenie"]

/-- Keyword set for the legal advisor. -/
def legal_keywords : List String :=
  ["prawo", "prawne", "umowa", "przepisy", "regulacje", "ustawa", "kodeks",
   "kontrakt"]

/-- Keyword set for the investment advisor. -/
def investment_keywords : List String :=
  ["inwestycja", "inwestowanie", "giełda", "akcje", "obligacje", "fundusz",
   "portfel", "etf", "dywidenda"]

/-- Keyword set for the financial advisor. -/
def financial_keywords : List String :=
  ["budżet", "oszczędności", "wydatki", "dochody", "kredyt", "pożyczka",
   "planowanie", "emerytura", "ubezpieczenie"]

/-- `AIChatSelector._determine_advisor_from_message`: lower-case the
message and test the four keyword sets in order, defaulting to
`"financial"`. -/
def determine_advisor_from_message (message : String) : String :=
  let m := strLower message
  if tax_keywords.any (fun k => strIn k m) then "tax"
  else if legal_keywords.any (fun k => strIn k m) then "legal"
  else if investment_keywords.any (fun k => strIn k m) then "investment"
  else if financial_keywords.any (fun k => strIn k m) then "financial"
  else "financial"

/-- Explicit structured-guidance trigger phrases of
`check_decision_tree_readiness`. -/
def tree_triggers : List String :=
  ["pokaż opcje", "drzewo decyzyjne", "pomóż mi krok po kroku",
   "potrzebuję wskazówek", "jakie mam możliwości", "pokaz opcje",
   "co proponujesz", "jakie są opcje", "co mogę zrobić", "pokaż możliwości"]

/-- Implicit guidance-request phrases of `check_decision_tree_readiness`. -/
def guidance_indicators : List String :=
  ["nie wiem co robić", "doradź mi", "co powinienem", "co powinnam",
   "najlepsze opcje", "co byś radził", "powiedz mi co", "pomóż mi zdecydować"]

/-- Result of `check_decision_tree_readiness` (the returned dictionary:
`ready_for_tree`, optional `advisor_type`, optional `message`). -/
structure ReadinessResult where
  ready_for_tree : Bool
  advisor_type : Option String := none
  message : Option String := none
  deriving Repr, DecidableEq

/-- `AIChatSelector.check_decision_tree_readiness`: substring match of the
lower-cased message against the explicit triggers (ready, advisor from the
context's `recommended_advisor` or else from `_determine_advisor_from_message`)
then the implicit indicators (ready, confirmation prompt only); otherwise
not ready.  `recommendedAdvisor` models `context.get("recommended_advisor", …)`. -/
def check_decision_tree_readiness (message : String)
    (recommendedAdvisor : Option String) : ReadinessResult :=
  let messageLower := strLower message
  if tree_triggers.any (fun t => strIn t messageLower) then
    { ready_for_tree := true
      advisor_type :=
        some (recommendedAdvisor.getD (determine_advisor_from_message message))
      message := some ("Przejdźmy do bardziej strukturyzowanego podejścia. Zaraz przedstawię Ci kilka opcji, które pomogą mi lepiej zrozumieć Twoją sytuację i dostarczyć konkretne rekomendacje.") }
  else if guidance_indicators.any (fun g => strIn g messageLower) then
    { ready_for_tree := true
      message := some ("Widzę, że szukasz konkretnych wskazówek. Najlepiej będzie, jeśli przeprowadzę Cię przez serię pytań, które pomogą mi lepiej zrozumieć Twoją sytuację. Czy chcesz przejść do takiego ustrukturyzowanego podejścia?") }
  else
    { ready_for_tree := false }

/-! ## FinancialDecisionTree: static tree (`ai/tree_model.py`, `_initialize_tree`) -/

/-- The `recommendation` template dictionary of a recommendation node. -/
structure RecommendationTemplate where
  title : String
  description : String
  context_dependent : Bool
  deriving Repr, DecidableEq

/-- `DecisionNode` (tree_model.py): options are `(id, label)` pairs,
`next_steps` maps an option id to the next node id. -/
structure DecisionNode where
  id : String
  type : String := "question"
  question : String := ""
  options : List (String × String) := []
  next_steps : List (String × String) := []
  context_dependent : Bool := false
  recommendation : Option RecommendationTemplate := none
  deriving Repr, DecidableEq

/-- The static decision tree built by `_initialize_tree`, as the
association list of `(node id, node)` pairs in insertion order. -/
def decisionTree : List (String × DecisionNode) :=
  [ ("root",
     { id := "root", type := "question"
       question := "Jaki jest Twój główny cel finansowy?"
       options :=
         [("emergency_fund", "Fundusz awaryjny"),
          ("debt_reduction", "Spłata zadłużenia"),
          ("home_purchase", "Zakup nieruchomości"),
          ("retirement", "Oszczędzanie na emeryturę"),
          ("education", "Edukacja (studia, kursy)"),
          ("vacation", "Wakacje i podróże"),
          ("other", "Inny cel")]
       next_steps :=
         [("emergency_fund", "ef_timeframe"),
          ("debt_reduction", "debt_type"),
          ("home_purchase", "home_timeframe"),
          ("retirement", "retirement_age"),
          ("education", "education_timeframe"),
          ("vacation", "vacation_timeframe"),
          ("other", "other_goal_amount")] }),
    ("ef_timeframe",
     { id := "ef_timeframe", type := "question"
       question := "W jakim czasie chcesz zgromadzić fundusz awaryjny?"
       options :=
         [("short", "W ciągu 6 miesięcy"),
          ("medium", "W ciągu roku"),
          ("long", "W ciągu 1-2 lat")]
       next_steps :=
         [("short", "ef_amount"), ("medium", "ef_amount"), ("long", "ef_amount")] }),
    ("ef_amount",
     { id := "ef_amount", type := "question"
       question := "Ile miesięcznych wydatków chcesz pokryć funduszem awaryjnym?"
       options :=
         [("three", "3 miesiące wydatków"),
          ("six", "6 miesięcy wydatków"),
          ("twelve", "12 miesięcy wydatków")]
       next_steps :=
         [("three", "ef_savings_method"), ("six", "ef_savings_method"),
          ("twelve", "ef_savings_method")] }),
    ("ef_savings_method",
     { id := "ef_savings_method", type := "question"
       question := "Jaki sposób oszczędzania preferujesz?"
       options :=
         [("automatic", "Automatyczne odkładanie stałej kwoty"),
          ("percentage", "Odkładanie procentu dochodów"),
          ("surplus", "Odkładanie nadwyżek z budżetu")]
       next_steps :=
         [("automatic", "ef_recommendation"), ("percentage", "ef_recommendation"),
          ("surplus", "ef_recommendation")] }),
    ("ef_recommendation",
     { id := "ef_recommendation", type := "recommendation"
       recommendation := some
         { title := "Plan budowy funduszu awaryjnego"
           description := "Przygotowaliśmy strategię budowy Twojego funduszu awaryjnego."
           context_dependent := true } }),
    ("debt_type",
     { id := "debt_type", type := "question"
       question := "Jaki rodzaj zadłużenia chcesz spłacić w pierwszej kolejności?"
       options :=
         [("credit_card", "Karty kredytowe / Chwilówki (wysokie oprocentowanie)"),
          ("consumer", "Kredyty konsumpcyjne"),
          ("mortgage", "Kredyt hipoteczny"),
          ("student", "Kredyt studencki"),
          ("multiple", "Mam kilka różnych zobowiązań")]
       next_steps :=
         [("credit_card", "debt_total_amount"), ("consumer", "debt_total_amount"),
          ("mortgage", "debt_total_amount"), ("student", "debt_total_amount"),
          ("multiple", "debt_total_amount")] }),
    ("debt_total_amount",
     { id := "debt_total_amount", type := "question"
       question := "Jaka jest łączna kwota Twojego zadłużenia?"
       options :=
         [("small", "Do 10,000 zł"),
          ("medium", "10,000 - 50,000 zł"),
          ("large", "50,000 - 200,000 zł"),
          ("very_large", "Powyżej 200,000 zł")]
       next_steps :=
         [("small", "debt_strategy"), ("medium", "debt_strategy"),
          ("large", "debt_strategy"), ("very_large", "debt_strategy")] }),
    ("debt_strategy",
     { id := "debt_strategy", type := "question"
       question := "Jaką strategię spłaty zadłużenia preferujesz?"
       options :=
         [("avalanche", "Najpierw najwyżej oprocentowane (metoda lawiny)"),
          ("snowball", "Najpierw najmniejsze kwoty (metoda kuli śnieżnej)"),
          ("consolidation", "Konsolidacja zadłużenia"),
          ("not_sure", "Nie jestem pewien/pewna")]
       next_steps :=
         [("avalanche", "debt_recommendation"), ("snowball", "debt_recommendation"),
          ("consolidation", "debt_recommendation"), ("not_sure", "debt_recommendation")] }),
    ("debt_recommendation",
     { id := "debt_recommendation", type := "recommendation"
       recommendation := some
         { title := "Plan redukcji zadłużenia"
           description := "Przygotowaliśmy strategię redukcji Twojego zadłużenia."
           context_dependent := true } }),
    ("home_timeframe",
     { id := "home_timeframe", type := "question"
       question := "W jakim czasie planujesz zakup nieruchomości?"
       options :=
         [("short", "W ciągu 1-2 lat"),
          ("medium", "W ciągu 3-5 lat"),
          ("long", "W ciągu 5-10 lat")]
       next_steps :=
         [("short", "home_down_payment"), ("medium", "home_down_payment"),
          ("long", "home_down_payment")] }),
    ("home_down_payment",
     { id := "home_down_payment", type := "question"
       question := "Ile procent wartości nieruchomości planujesz zgromadzić jako wkład własny?"
       options :=
         [("ten", "10% (minimalne wymaganie)"),
          ("twenty", "20% (standard)"),
          ("thirty_plus", "30% lub więcej"),
          ("full", "100% (zakup bez kredytu)")]
       next_steps :=
         [("ten", "home_budget"), ("twenty", "home_budget"),
          ("thirty_plus", "home_budget"), ("full", "home_budget")] }),
    ("home_budget",
     { id := "home_budget", type := "question"
       question := "Jaki jest Twój budżet na zakup nieruchomości?"
       options :=
         [("small", "Do 300,000 zł"),
          ("medium", "300,000 - 600,000 zł"),
          ("large", "600,000 - 1,000,000 zł"),
          ("very_large", "Powyżej 1,000,000 zł")]
       next_steps :=
         [("small", "home_recommendation"), ("medium", "home_recommendation"),
          ("large", "home_recommendation"), ("very_large", "home_recommendation")] }),
    ("home_recommendation",
     { id := "home_recommendation", type := "recommendation"
       recommendation := some
         { title := "Plan zakupu nieruchomości"
           description := "Przygotowaliśmy strategię oszczędzania na zakup nieruchomości."
           context_dependent := true } }),
    ("retirement_age",
     { id := "retirement_age", type := "question"
       question := "W jakim wieku planujesz przejść na emeryturę?"
       options :=
         [("early", "Wcześniej niż wiek emerytalny (emerytura wcześniejsza)"),
          ("standard", "W standardowym wieku emerytalnym"),
          ("late", "Później niż wiek emerytalny")]
       next_steps :=
         [("early", "retirement_current_age"), ("standard", "retirement_current_age"),
          ("late", "retirement_current_age")] }),
    ("retirement_current_age",
     { id := "retirement_current_age", type := "question"
       question := "Na jakim etapie życia zawodowego jesteś obecnie?"
       options :=
         [("early", "Początek kariery (20-35 lat)"),
          ("mid", "Środek kariery (36-50 lat)"),
          ("late", "Późny etap kariery (51+ lat)")]
       next_steps :=
         [("early", "retirement_vehicle"), ("mid", "retirement_vehicle"),
          ("late", "retirement_vehicle")] }),
    ("retirement_vehicle",
     { id := "retirement_vehicle", type := "question"
       question := "Jakie formy oszczędzania na emeryturę rozważasz?"
       options :=
         [("ike_ikze", "IKE/IKZE (indywidualne konta emerytalne)"),
          ("investment", "Własne inwestycje długoterminowe"),
          ("real_estate", "Nieruchomości na wynajem"),
          ("combined", "Strategia łączona")]
       next_steps :=
         [("ike_ikze", "retirement_recommendation"),
          ("investment", "retirement_recommendation"),
          ("real_estate", "retirement_recommendation"),
          ("combined", "retirement_recommendation")] }),
    ("retirement_recommendation",
     { id := "retirement_recommendation", type := "recommendation"
       recommendation := some
         { title := "Plan emerytalny"
           description := "Przygotowaliśmy strategię oszczędzania na emeryturę."
           context_dependent := true } }),
    ("education_timeframe",
     { id := "education_timeframe", type := "question"
       question := "Kiedy planujesz rozpocząć edukację?"
       options :=
         [("short", "W ciągu roku"),
          ("medium", "W ciągu 1-3 lat"),
          ("long", "W ciągu 3-5 lat")]
       next_steps :=
         [("short", "education_type"), ("medium", "education_type"),
          ("long", "education_type")] }),
    ("education_type",
     { id := "education_type", type := "question"
       question := "Jaki rodzaj edukacji planujesz?"
       options :=
         [("university", "Studia wyższe"),
          ("courses", "Kursy specjalistyczne"),
          ("certification", "Certyfikaty zawodowe"),
          ("child", "Oszczędzam na edukację dziecka")]
       next_steps :=
         [("university", "education_cost"), ("courses", "education_cost"),
          ("certification", "education_cost"), ("child", "education_cost")] }),
    ("education_cost",
     { id := "education_cost", type := "question"
       question := "Jaki jest szacowany koszt planowanej edukacji?"
       options :=
         [("small", "Do 10,000 zł"),
          ("medium", "10,000 - 30,000 zł"),
          ("large", "30,000 - 100,000 zł"),
          ("very_large", "Powyżej 100,000 zł")]
       next_steps :=
         [("small", "education_recommendation"), ("medium", "education_recommendation"),
          ("large", "education_recommendation"), ("very_large", "education_recommendation")] }),
    ("education_recommendation",
     { id := "education_recommendation", type := "recommendation"
       recommendation := some
         { title := "Plan finansowania edukacji"
           description := "Przygotowaliśmy strategię finansowania Twojej edukacji."
           context_dependent := true } }),
    ("vacation_timeframe",
     { id := "vacation_timeframe", type := "question"
       question := "Kiedy planujesz wyjazd?"
       options :=
         [("short", "W ciągu 6 miesięcy"),
          ("medium", "W ciągu roku"),
          ("long", "W ciągu 1-2 lat")]
       next_steps :=
         [("short", "vacation_cost"), ("medium", "vacation_cost"),
          ("long", "vacation_cost")] }),
    ("vacation_cost",
     { id := "vacation_cost", type := "question"
       question := "Jaki jest szacowany koszt wyjazdu?"
       options :=
         [("small", "Do 5,000 zł"),
          ("medium", "5,000 - 15,000 zł"),
          ("large", "15,000 - 30,000 zł"),
          ("very_large", "Powyżej 30,000 zł")]
       next_steps :=
         [("small", "vacation_savings_method"), ("medium", "vacation_savings_method"),
          ("large", "vacation_savings_method"), ("very_large", "vacation_savings_method")] }),
    ("vacation_savings_method",
     { id := "vacation_savings_method", type := "question"
       question := "W jaki sposób planujesz sfinansować wyjazd?"
       options :=
         [("savings", "Z bieżących oszczędności"),
          ("dedicated", "Specjalne konto dedykowane na ten cel"),
          ("combined", "Częściowo oszczędności, częściowo inne źródła"),
          ("credit", "Rozważam kredyt/pożyczkę")]
       next_steps :=
         [("savings", "vacation_recommendation"), ("dedicated", "vacation_recommendation"),
          ("combined", "vacation_recommendation"), ("credit", "vacation_recommendation")] }),
    ("vacation_recommendation",
     { id := "vacation_recommendation", type := "recommendation"
       recommendation := some
         { title := "Plan finansowania wakacji"
           description := "Przygotowaliśmy strategię finansowania Twojego wyjazdu."
           context_dependent := true } }),
    ("other_goal_amount",
     { id := "other_goal_amount", type := "question"
       question := "Jaka kwota jest potrzebna do realizacji Twojego celu?"
       options :=
         [("small", "Do 5,000 zł"),
          ("medium", "5,000 - 20,000 zł"),
          ("large", "20,000 - 50,000 zł"),
          ("very_large", "Powyżej 50,000 zł")]
       next_steps :=
         [("small", "other_timeframe"), ("medium", "other_timeframe"),
          ("large", "other_timeframe"), ("very_large", "other_timeframe")] }),
    ("other_timeframe",
     { id := "other_timeframe", type := "question"
       question := "W jakim czasie chcesz osiągnąć ten cel?"
       options :=
         [("short", "W ciągu 6 miesięcy"),
          ("medium", "W ciągu roku"),
          ("long", "W ciągu 1-3 lat"),
          ("very_long", "Powyżej 3 lat")]
       next_steps :=
         [("short", "other_priority"), ("medium", "other_priority"),
          ("long", "other_priority"), ("very_long", "other_priority")] }),
    ("other_priority",
     { id := "other_priority", type := "question"
       question := "Jak wysoki priorytet ma dla Ciebie ten cel?"
       options :=
         [("low", "Niski - mogę go odłożyć w czasie"),
          ("medium", "Średni - chciałbym/chciałabym go osiągnąć, ale mogę być elastyczny/a"),
          ("high", "Wysoki - to dla mnie bardzo ważne")]
       next_steps :=
         [("low", "other_recommendation"), ("medium", "other_recommendation"),
          ("high", "other_recommendation")] }),
    ("other_recommendation",
     { id := "other_recommendation", type := "recommendation"
       recommendation := some
         { title := "Plan realizacji celu"
           description := "Przygotowaliśmy strategię osiągnięcia Twojego celu."
           context_dependent := true } }) ]

/-! ## Recommendation generation (`tree_model.py`) -/

/-- `FinancialRecommendation` (tree_model.py). -/
structure FinancialRecommendation where
  id : String
  title : String
  description : String
  advisor_type : String
  impact : String
  action_items : List String := []
  resources : List (String × String) := []
  deriving Repr, DecidableEq

/-- `_generate_emergency_fund_recommendations`: one base recommendation,
exactly one savings-method recommendation (the `else` branch covers every
non-automatic, non-percentage value), and the `emergency_fund_location`
recommendation appended for everyone. -/
def generate_emergency_fund_recommendations (timeframe amount savings_method : String) :
    List FinancialRecommendation :=
  let months : Nat := aget [("three", 3), ("six", 6), ("twelve", 12)] amount 6
  let savings_rate : String :=
    aget [("short", "wysokim"), ("medium", "średnim"), ("long", "niskim")] timeframe "średnim"
  let method_description : String :=
    aget [("automatic", "automatycznego odkładania stałej kwoty"),
          ("percentage", "odkładania stałego procentu dochodów"),
          ("surplus", "odkładania nadwyżek budżetowych")]
      savings_method "automatycznego odkładania"
  [{ id := "emergency_fund_base"
     title := "Plan budowy funduszu awaryjnego na " ++ toString months ++ " miesięcy wydatków"
     description := "Strategia budowy funduszu awaryjnego przy " ++ savings_rate ++
       " tempie oszczędzania z wykorzystaniem " ++ method_description ++ "."
     advisor_type := "financial"
     impact := "high"
     action_items :=
       ["Określ swoje miesięczne wydatki i pomnóż je przez " ++ toString months ++
          ", aby ustalić docelową kwotę funduszu",
        "Wybierz bezpieczne, płynne instrumenty finansowe (np. konto oszczędnościowe, lokaty krótkoterminowe)",
        "Skorzystaj z funkcji automatycznych przelewów w swoim banku",
        "Korzystaj z funduszu tylko w prawdziwych sytuacjach awaryjnych"] }] ++
  (if savings_method = "automatic" then
     [{ id := "emergency_fund_automatic"
        title := "Automatyzacja oszczędzania"
        description := "Skuteczne strategie automatycznego oszczędzania na fundusz awaryjny."
        advisor_type := "financial"
        impact := "medium"
        action_items :=
          ["Ustaw stałe zlecenie dzień po otrzymaniu wynagrodzenia",
           "Zacznij od odkładania 10% dochodu i stopniowo zwiększaj tę kwotę",
           "Rozważ korzystanie z aplikacji do automatycznego zaokrąglania transakcji",
           "Regularnie przeglądaj i optymalizuj kwotę automatycznych przelewów"] }]
   else if savings_method = "percentage" then
     [{ id := "emergency_fund_percentage"
        title := "Oszczędzanie procentu dochodów"
        description := "Strategie oszczędzania stałego procentu dochodów na fundusz awaryjny."
        advisor_type := "financial"
        impact := "medium"
        action_items :=
          ["Zacznij od odkładania 15-20% miesięcznego dochodu",
           "Przy dodatkowych dochodach (premie, nadgodziny), zachowaj tę samą zasadę procentową",
           "Rozważ zwiększenie procentu oszczędności przy wzroście dochodów",
           "Ustaw przypomnienia do przelewów jeśli nie możesz ich zautomatyzować"] }]
   else
     [{ id := "emergency_fund_surplus"
        title := "Oszczędzanie nadwyżek budżetowych"
        description := "Strategie efektywnego odkładania nadwyżek budżetowych na fundusz awaryjny."
        advisor_type := "financial"
        impact := "medium"
        action_items :=
          ["Stwórz szczegółowy budżet miesięczny z kategorią \x27nadwyżka\x27",
           "Przeznaczaj całą nadwyżkę na fundusz awaryjny do momentu osiągnięcia celu",
           "Szukaj obszarów redukcji wydatków, aby zwiększyć nadwyżkę",
           "Rozważ dodatkowe źródła dochodów, jeśli nadwyżka jest zbyt mała"] }]) ++
  [{ id := "emergency_fund_location"
     title := "Gdzie trzymać fundusz awaryjny"
     description := "Rekomendacje dotyczące optymalnego miejsca przechowywania funduszu awaryjnego."
     advisor_type := "financial"
     impact := "medium"
     action_items :=
       ["Wybierz konto oszczędnościowe z natychmiastowym dostępem do środków",
        "Rozważ częściowe wykorzystanie lokat krótkoterminowych dla lepszego oprocentowania",
        "Unikaj instrumentów z opłatami za wcześniejsze wycofanie środków",
        "Porównaj oprocentowanie w różnych bankach i wybierz najkorzystniejszą ofertę"] }]

/-- `_generate_debt_reduction_recommendations`: one base recommendation, a
strategy-specific recommendation for the three named strategies (and, in
the `not_sure` fallthrough, only for credit-card/multiple or mortgage debt),
and the `debt_budget_discipline` recommendation appended for everyone. -/
def generate_debt_reduction_recommendations (debt_type total_amount strategy : String) :
    List FinancialRecommendation :=
  let debt_description : String :=
    aget [("credit_card", "wysoko oprocentowanych kart kredytowych i chwilówek"),
          ("consumer", "kredytów konsumpcyjnych"),
          ("mortgage", "kredytu hipotecznego"),
          ("student", "kredytu studenckiego"),
          ("multiple", "różnych zobowiązań")]
      debt_type "zadłużenia"
  let strategy_name : String :=
    aget [("avalanche", "metodą lawiny (najwyższe oprocentowanie najpierw)"),
          ("snowball", "metodą kuli śnieżnej (najmniejsze kwoty najpierw)"),
          ("consolidation", "poprzez konsolidację zadłużenia"),
          ("not_sure", "strategią dopasowaną do Twojej sytuacji")]
      strategy "optymalną strategią"
  [{ id := "debt_reduction_base"
     title := "Plan spłaty " ++ debt_description
     description := "Strategia spłaty zadłużenia " ++ strategy_name ++ "."
     advisor_type := "financial"
     impact := "high"
     action_items :=
       ["Stwórz pełną listę wszystkich zobowiązań z kwotami, oprocentowaniem i terminami",
        "Przygotuj budżet, który pozwoli przeznaczyć maksymalną kwotę na spłatę zadłużenia",
        "Utrzymuj regularne, terminowe spłaty wszystkich zobowiązań",
        "Unikaj zaciągania nowych długów w trakcie realizacji planu spłaty"] }] ++
  (if strategy = "avalanche" then
     [{ id := "debt_avalanche"
        title := "Strategia lawiny (Debt Avalanche)"
        description := "Szczegółowe rekomendacje do wdrożenia metody lawiny w spłacie zadłużenia."
        advisor_type := "financial"
        impact := "high"
        action_items :=
          ["Uszereguj wszystkie długi według oprocentowania, od najwyższego do najniższego",
           "Spłacaj minimalne kwoty wszystkich zobowiązań",
           "Dodatkowe środki kieruj na zobowiązanie z najwyższym oprocentowaniem",
           "Po spłacie zobowiązania z najwyższym oprocentowaniem, przenieś środki na kolejne"] }]
   else if strategy = "snowball" then
     [{ id := "debt_snowball"
        title := "Strategia kuli śnieżnej (Debt Snowball)"
        description := "Szczegółowe rekomendacje do wdrożenia metody kuli śnieżnej w spłacie zadłużenia."
        advisor_type := "financial"
        impact := "high"
        action_items :=
          ["Uszereguj wszystkie długi według kwoty, od najmniejszej do największej",
           "Spłacaj minimalne kwoty wszystkich zobowiązań",
           "Dodatkowe środki kieruj na zobowiązanie z najmniejszą kwotą",
           "Po spłacie najmniejszego zobowiązania, przenieś środki na kolejne"] }]
   else if strategy = "consolidation" then
     [{ id := "debt_consolidation"
        title := "Konsolidacja zadłużenia"
        description := "Szczegółowe rekomendacje dotyczące konsolidacji zadłużenia."
        advisor_type := "financial"
        impact := "high"
        action_items :=
          ["Porównaj oferty kredytów konsolidacyjnych od różnych banków",
           "Upewnij się, że efektywne oprocentowanie konsolidacji jest niższe niż obecne",
           "Przygotuj wymagane dokumenty (zaświadczenia o dochodach, historia kredytowa)",
           "Po konsolidacji, stwórz plan systematycznej spłaty nowego kredytu"] }]
   else if debt_type = "credit_card" ∨ debt_type = "multiple" then
     [{ id := "debt_high_interest_first"
        title := "Priorytetyzacja wysoko oprocentowanych długów"
        description := "Rekomendacje dotyczące priorytetyzacji spłaty wysoko oprocentowanych zobowiązań."
        advisor_type := "financial"
        impact := "high"
        action_items :=
          ["Zidentyfikuj zobowiązania z najwyższym oprocentowaniem (zwykle karty kredytowe)",
           "Skup się na spłacie tych zobowiązań w pierwszej kolejności",
           "Rozważ refinansowanie lub przeniesienie salda na kartę z okresem bez odsetek",
           "Zrezygnuj z korzystania z kart kredytowych do czasu spłaty zadłużenia"] }]
   else if debt_type = "mortgage" then
     [{ id := "debt_mortgage_optimization"
        title := "Optymalizacja kredytu hipotecznego"
        description := "Rekomendacje dotyczące optymalizacji spłaty kredytu hipotecznego."
        advisor_type := "financial"
        impact := "high"
        action_items :=
          ["Rozważ refinansowanie kredytu, jeśli dostępne są niższe stopy procentowe",
           "Analizuj możliwość nadpłaty kredytu (sprawdź warunki w umowie)",
           "Optymalizuj harmonogram spłat, aby zmniejszyć całkowity koszt kredytu",
           "Monitoruj rynek i zmiany stóp procentowych"] }]
   else []) ++
  [{ id := "debt_budget_discipline"
     title := "Dyscyplina budżetowa podczas spłaty zadłużenia"
     description := "Strategie utrzymania dyscypliny budżetowej podczas realizacji planu spłaty zadłużenia."
     advisor_type := "financial"
     impact := "medium"
     action_items :=
       ["Stwórz szczegółowy budżet z kategorią \x27spłata zadłużenia\x27",
        "Zidentyfikuj obszary potencjalnych oszczędności i ogranicz zbędne wydatki",
        "Rozważ dodatkowe źródła dochodu, aby przyspieszyć spłatę",
        "Regularnie monitoruj postępy i dokonuj korekt w planie spłaty jeśli to konieczne"] }]

/-- `_generate_home_purchase_recommendations`: one base recommendation,
exactly one timeframe recommendation (the `else` branch covers every
non-short, non-medium value), a down-payment recommendation only for
`ten`/`full`, and the `home_purchase_preparation` recommendation for
everyone. -/
def generate_home_purchase_recommendations (timeframe down_payment budget : String) :
    List FinancialRecommendation :=
  let timeframe_desc : String :=
    aget [("short", "krótkim (1-2 lata)"), ("medium", "średnim (3-5 lat)"),
          ("long", "długim (5-10 lat)")] timeframe "planowanym"
  let down_payment_percent : String :=
    aget [("ten", "10%"), ("twenty", "20%"), ("thirty_plus", "30% lub więcej"),
          ("full", "100% (bez kredytu)")] down_payment "wymaganym"
  let budget_desc : String :=
    aget [("small", "niższym budżecie (do 300 tys. zł)"),
          ("medium", "średnim budżecie (300-600 tys. zł)"),
          ("large", "wyższym budżecie (600 tys. - 1 mln zł)"),
          ("very_large", "wysokim budżecie (powyżej 1 mln zł)")] budget "zaplanowanym budżecie"
  [{ id := "home_purchase_base"
     title := "Plan zakupu nieruchomości w " ++ timeframe_desc ++ " okresie"
     description := "Strategia oszczędzania na zakup nieruchomości z wkładem własnym " ++
       down_payment_percent ++ " przy " ++ budget_desc ++ "."
     advisor_type := "financial"
     impact := "high"
     action_items :=
       ["Utwórz dedykowane konto oszczędnościowe na wkład własny",
        "Ustaw automatyczne przelewy na to konto w dniu wypłaty",
        "Monitoruj rynek nieruchomości i trendy cenowe w interesujących Cię lokalizacjach",
        "Sprawdź swoją zdolność kredytową i możliwości jej poprawy"] }] ++
  (if timeframe = "short" then
     [{ id := "home_purchase_short_term"
        title := "Oszczędzanie na wkład własny w krótkim okresie"
        description := "Strategie szybkiego zgromadzenia środków na wkład własny w ciągu 1-2 lat."
        advisor_type := "financial"
        impact := "high"
        action_items :=
          ["Maksymalizuj oszczędności - rozważ odkładanie 30-40% miesięcznych dochodów",
           "Poszukaj dodatkowych źródeł dochodu (praca dodatkowa, sprzedaż niepotrzebnych rzeczy)",
           "Ogranicz wszystkie zbędne wydatki i zoptymalizuj koszty stałe",
           "Rozważ lokaty krótkoterminowe dla bezpiecznego pomnażania oszczędności"] }]
   else if timeframe = "medium" then
     [{ id := "home_purchase_medium_term"
        title := "Oszczędzanie na wkład własny w średnim okresie"
        description := "Strategie zgromadzenia środków na wkład własny w ciągu 3-5 lat."
        advisor_type := "financial"
        impact := "high"
        action_items :=
          ["Ustaw plan systematycznego oszczędzania 20-25% miesięcznych dochodów",
           "Rozważ bardziej zróżnicowane instrumenty oszczędnościowe (lokaty, obligacje)",
           "Regularnie zwiększaj kwotę oszczędności wraz ze wzrostem dochodów",
           "Bądź na bieżąco z programami wsparcia dla osób kupujących pierwsze mieszkanie"] }]
   else
     [{ id := "home_purchase_long_term"
        title := "Oszczędzanie na wkład własny w długim okresie"
        description := "Strategie zgromadzenia środków na wkład własny w ciągu 5-10 lat."
        advisor_type := "investment"
        impact := "high"
        action_items :=
          ["Ustaw plan systematycznego oszczędzania 15-20% miesięcznych dochodów",
           "Rozważ bardziej zróżnicowaną strategię inwestycyjną (fundusze, ETF-y)",
           "Reinwestuj zyski z inwestycji, aby wykorzystać efekt procentu składanego",
           "Regularnie monitoruj i rebalansuj portfel, dostosowując go do zmieniających się warunków rynkowych"] }]) ++
  (if down_payment = "ten" then
     [{ id := "home_purchase_min_down_payment"
        title := "Strategia minimalnego wkładu własnego"
        description := "Rekomendacje dla osób planujących zakup z minimalnym (10%) wkładem własnym."
        advisor_type := "financial"
        impact := "medium"
        action_items :=
          ["Przygotuj się na wyższe koszty kredytu i potencjalny wymóg ubezpieczenia niskiego wkładu",
           "Dokładnie porównaj oferty różnych banków - niektóre mają korzystniejsze warunki przy niskim wkładzie",
           "Rozważ podniesienie zdolności kredytowej poprzez spłatę istniejących zobowiązań",
           "Miej plan awaryjny w przypadku zmian na rynku kredytów hipotecznych"] }]
   else if down_payment = "full" then
     [{ id := "home_purchase_cash"
        title := "Zakup nieruchomości za gotówkę"
        description := "Rekomendacje dla osób planujących zakup nieruchomości bez kredytu."
        advisor_type := "financial"
        impact := "medium"
        action_items :=
          ["Rozważ bardziej agresywną strategię inwestycyjną dla części środków",
           "Zaplanuj optymalny moment zakupu, obserwując trendy cenowe na rynku",
           "Przygotuj rezerwę finansową na koszty transakcyjne i wykończeniowe",
           "Rozważ czy pełny zakup gotówkowy jest optymalny - czasem lepiej zainwestować część środków"] }]
   else []) ++
  [{ id := "home_purchase_preparation"
     title := "Przygotowanie do zakupu nieruchomości"
     description := "Kompleksowe przygotowanie do procesu zakupu nieruchomości."
     advisor_type := "financial"
     impact := "medium"
     action_items :=
       ["Zbadaj dokładnie rynek w interesujących Cię lokalizacjach",
        "Przygotuj dodatkowe środki na koszty transakcyjne (prowizje, podatki, notariusz)",
        "Zaplanuj budżet na remont i wyposażenie",
        "Skonsultuj się z doradcą kredytowym na wczesnym etapie planowania"] }]

/-- `_generate_retirement_recommendations`: one base recommendation,
exactly one career-stage recommendation (the `else` branch covers every
non-early, non-mid value), a vehicle recommendation only for
`ike_ikze`/`real_estate`/`investment`, and the `retirement_diversification`
recommendation for everyone. -/
def generate_retirement_recommendations (retirement_age current_age vehicle : String) :
    List FinancialRecommendation :=
  let retirement_age_desc : String :=
    aget [("early", "wcześniejszej emerytury"), ("standard", "emerytury w standardowym wieku"),
          ("late", "późniejszej emerytury")] retirement_age "emerytury"
  let current_age_desc : String :=
    aget [("early", "wczesnym etapie kariery"), ("mid", "środkowym etapie kariery"),
          ("late", "późnym etapie kariery")] current_age "obecnym etapie kariery"
  let vehicle_desc : String :=
    aget [("ike_ikze", "IKE/IKZE"), ("investment", "własne inwestycje długoterminowe"),
          ("real_estate", "nieruchomości na wynajem"), ("combined", "strategię łączoną")]
      vehicle "wybrane instrumenty"
  [{ id := "retirement_base"
     title := "Plan oszczędzania na " ++ retirement_age_desc
     description := "Strategia budowania zabezpieczenia emerytalnego na " ++ current_age_desc ++
       " poprzez " ++ vehicle_desc ++ "."
     advisor_type := "financial"
     impact := "high"
     action_items :=
       ["Określ swoje potrzeby finansowe na emeryturze",
        "Ustal, ile musisz oszczędzać miesięcznie, aby osiągnąć cel",
        "Rozpocznij regularne wpłaty na wybrane instrumenty emerytalne",
        "Systematycznie weryfikuj i dostosowuj strategię do zmieniających się warunków"] }] ++
  (if current_age = "early" then
     [{ id := "retirement_early_career"
        title := "Oszczędzanie na emeryturę na początku kariery"
        description := "Strategie budowania zabezpieczenia emerytalnego dla osób w wieku 20-35 lat."
        advisor_type := "investment"
        impact := "high"
        action_items :=
          ["Wykorzystaj długi horyzont inwestycyjny - rozważ wyższy udział akcji (70-80%)",
           "Maksymalnie wykorzystaj siłę procentu składanego - rozpocznij oszczędzanie jak najwcześniej",
           "Ustaw automatyczne, regularne wpłaty, nawet jeśli zaczynasz od małych kwot",
           "Maksymalizuj wpłaty na IKE/IKZE dla korzyści podatkowych"] }]
   else if current_age = "mid" then
     [{ id := "retirement_mid_career"
        title := "Oszczędzanie na emeryturę w środku kariery"
        description := "Strategie budowania zabezpieczenia emerytalnego dla osób w wieku 36-50 lat."
        advisor_type := "investment"
        impact := "high"
        action_items :=
          ["Zwiększ kwotę oszczędności do 15-20% dochodów",
           "Dostosuj strategię inwestycyjną - zrównoważony portfel (50-60% akcji, 40-50% obligacji)",
           "Maksymalizuj wpłaty na IKE/IKZE i inne dostępne programy emerytalne",
           "Rozważ dodatkowe źródła dochodu pasywnego (nieruchomości, dywidendy)"] }]
   else
     [{ id := "retirement_late_career"
        title := "Oszczędzanie na emeryturę w późnym etapie kariery"
        description := "Strategie budowania zabezpieczenia emerytalnego dla osób w wieku 51+ lat."
        advisor_type := "investment"
        impact := "high"
        action_items :=
          ["Maksymalizuj oszczędności - rozważ odkładanie 25-30% dochodów",
           "Dostosuj strategię inwestycyjną - bardziej konserwatywny portfel (30-40% akcji, 60-70% obligacji)",
           "Wykorzystaj możliwości wyższych wpłat na IKE/IKZE dla osób 50+",
           "Opracuj strategię wypłat środków po przejściu na emeryturę"] }]) ++
  (if vehicle = "ike_ikze" then
     [{ id := "retirement_ike_ikze"
        title := "Maksymalizacja korzyści z IKE i IKZE"
        description := "Strategie optymalnego wykorzystania indywidualnych kont emerytalnych."
        advisor_type := "tax"
        impact := "high"
        action_items :=
          ["Maksymalizuj roczne wpłaty do limitu (szczególnie na IKZE dla bieżących korzyści podatkowych)",
           "Rozważ równoczesne wykorzystanie IKE i IKZE dla różnych korzyści podatkowych",
           "Starannie wybierz instytucję prowadzącą konta, porównując opłaty i ofertę inwestycyjną",
           "Dostosuj strategię inwestycyjną w ramach IKE/IKZE do swojego wieku i profilu ryzyka"] }]
   else if vehicle = "real_estate" then
     [{ id := "retirement_real_estate"
        title := "Nieruchomości jako zabezpieczenie emerytalne"
        description := "Strategie wykorzystania nieruchomości w budowaniu zabezpieczenia emerytalnego."
        advisor_type := "investment"
        impact := "high"
        action_items :=
          ["Inwestuj w nieruchomości generujące stabilny przepływ gotówki (wynajem)",
           "Dywersyfikuj portfel nieruchomości (lokalizacja, typ nieruchomości)",
           "Planuj spłatę ewentualnych kredytów hipotecznych przed przejściem na emeryturę",
           "Rozważ utworzenie funduszu na nieoczekiwane wydatki związane z nieruchomościami"] }]
   else if vehicle = "investment" then
     [{ id := "retirement_own_investments"
        title := "Własny portfel inwestycyjny na emeryturę"
        description := "Strategie budowania własnego portfela inwestycyjnego z myślą o emeryturze."
        advisor_type := "investment"
        impact := "high"
        action_items :=
          ["Stwórz zdywersyfikowany portfel dostosowany do Twojego horyzontu emerytalnego",
           "Systematycznie inwestuj niezależnie od warunków rynkowych (DCA)",
           "Dostosuj alokację aktywów do wieku (np. reguła 100 minus wiek dla udziału akcji)",
           "Reinwestuj otrzymane dywidendy i odsetki dla efektu procentu składanego"] }]
   else []) ++
  [{ id := "retirement_diversification"
     title := "Dywersyfikacja źródeł dochodu emerytalnego"
     description := "Strategie budowania wielu źródeł dochodu na emeryturze."
     advisor_type := "financial"
     impact := "medium"
     action_items :=
       ["Nie polegaj wyłącznie na jednym źródle dochodu emerytalnego",
        "Łącz różne instrumenty (państwowy system emerytalny, IKE/IKZE, własne inwestycje)",
        "Buduj aktywa generujące pasywny dochód (nieruchomości, dywidendy, obligacje)",
        "Regularnie weryfikuj i dostosowuj strategię do zmieniających się warunków"] }]

/-- `_generate_education_recommendations`: one base recommendation, then
only conditional extras (type `university`/`child`, cost
`large`/`very_large`, timeframe `short`/`long`).  Unlike every other goal
this generator appends NO common recommendation for everyone. -/
def generate_education_recommendations (timeframe education_type cost : String) :
    List FinancialRecommendation :=
  let timeframe_desc : String :=
    aget [("short", "krótkim czasie (w ciągu roku)"), ("medium", "średnim okresie (1-3 lata)"),
          ("long", "dłuższym okresie (3-5 lat)")] timeframe "planowanym okresie"
  let education_desc : String :=
    aget [("university", "studiów wyższych"), ("courses", "kursów specjalistycznych"),
          ("certification", "certyfikatów zawodowych"), ("child", "edukacji dziecka")]
      education_type "edukacji"
  let cost_desc : String :=
    aget [("small", "niższym koszcie (do 10 tys. zł)"),
          ("medium", "średnim koszcie (10-30 tys. zł)"),
          ("large", "wyższym koszcie (30-100 tys. zł)"),
          ("very_large", "wysokim koszcie (powyżej 100 tys. zł)")] cost "szacowanym koszcie"
  [{ id := "education_base"
     title := "Plan finansowania " ++ education_desc ++ " w " ++ timeframe_desc
     description := "Strategia finansowania edukacji o " ++ cost_desc ++ "."
     advisor_type := "financial"
     impact := "high"
     action_items :=
       ["Utwórz dedykowany fundusz edukacyjny z regularnym zasilaniem",
        "Opracuj budżet uwzględniający wszystkie koszty edukacji (nie tylko czesne)",
        "Wyszukaj dostępne stypendia, dofinansowania i ulgi podatkowe",
        "Zaplanuj harmonogram wydatków i dostosuj strategię oszczędzania"] }] ++
  (if education_type = "university" then
     [{ id := "education_university"
        title := "Finansowanie studiów wyższych"
        description := "Strategie finansowania studiów wyższych."
        advisor_type := "financial"
        impact := "medium"
        action_items :=
          ["Sprawdź możliwości studiowania na uczelniach publicznych (bezpłatnie)",
           "Poszukaj programów stypendialnych (naukowych, socjalnych, sportowych)",
           "Rozważ kredyt studencki z preferencyjnymi warunkami",
           "Zaplanuj pracę dorywczą w trakcie studiów dla pokrycia części kosztów"] }]
   else if education_type = "child" then
     [{ id := "education_child"
        title := "Długoterminowe oszczędzanie na edukację dziecka"
        description := "Strategie budowania funduszu edukacyjnego dla dziecka."
        advisor_type := "investment"
        impact := "high"
        action_items :=
          ["Rozpocznij oszczędzanie jak najwcześniej - najlepiej od narodzin dziecka",
           "Rozważ długoterminowe instrumenty inwestycyjne dostosowane do horyzontu czasowego",
           "Ustaw regularne, automatyczne wpłaty na dedykowane konto",
           "Dostosuj strategię inwestycyjną: bardziej agresywna na początku, konserwatywna gdy dziecko zbliża się do wieku edukacyjnego"] }]
   else []) ++
  (if cost = "large" ∨ cost = "very_large" then
     [{ id := "education_high_cost"
        title := "Finansowanie kosztownej edukacji"
        description := "Strategie finansowania edukacji o wysokim koszcie."
        advisor_type := "financial"
        impact := "high"
        action_items :=
          ["Rozważ kombinację różnych źródeł finansowania (oszczędności, kredyt, stypendia)",
           "Poszukaj możliwości rozłożenia płatności na raty bez dodatkowych kosztów",
           "Porównaj programy edukacyjne pod kątem stosunku jakości do ceny",
           "Zbadaj możliwości dofinansowania przez pracodawcę (szczególnie przy certyfikacjach zawodowych)"] }]
   else []) ++
  (if timeframe = "short" then
     [{ id := "education_short_term"
        title := "Szybkie gromadzenie funduszu edukacyjnego"
        description := "Strategie szybkiego zgromadzenia środków na edukację."
        advisor_type := "financial"
        impact := "medium"
        action_items :=
          ["Maksymalizuj oszczędności - rozważ tymczasowe ograniczenie innych wydatków",
           "Poszukaj dodatkowych źródeł dochodu",
           "Wykorzystaj dostępne środki płynne (konta oszczędnościowe, lokaty)",
           "Jeśli konieczne, rozważ kredyt edukacyjny z planem szybkiej spłaty"] }]
   else if timeframe = "long" then
     [{ id := "education_long_term"
        title := "Długoterminowe oszczędzanie na edukację"
        description := "Strategie systematycznego budowania funduszu edukacyjnego."
        advisor_type := "investment"
        impact := "medium"
        action_items :=
          ["Wykorzystaj siłę procentu składanego - inwestuj regularnie od początku",
           "Rozważ bardziej dynamiczne instrumenty inwestycyjne na początku okresu oszczędzania",
           "Stopniowo zwiększaj udział bezpiecznych instrumentów w miarę zbliżania się terminu",
           "Regularnie weryfikuj, czy zgromadzone środki są adekwatne do aktualnych kosztów edukacji"] }]
   else [])

/-- `_generate_vacation_recommendations`: one base recommendation,
conditional timeframe/cost/method extras, and the
`vacation_budget_management` recommendation for everyone. -/
def generate_vacation_recommendations (timeframe cost savings_method : String) :
    List FinancialRecommendation :=
  let timeframe_desc : String :=
    aget [("short", "krótkim czasie (w ciągu 6 miesięcy)"),
          ("medium", "średnim okresie (w ciągu roku)"),
          ("long", "dłuższym okresie (1-2 lata)")] timeframe "planowanym okresie"
  let cost_desc : String :=
    aget [("small", "niższym koszcie (do 5 tys. zł)"),
          ("medium", "średnim koszcie (5-15 tys. zł)"),
          ("large", "wyższym koszcie (15-30 tys. zł)"),
          ("very_large", "wysokim koszcie (powyżej 30 tys. zł)")] cost "szacowanym koszcie"
  let method_desc : String :=
    aget [("savings", "z bieżących oszczędności"),
          ("dedicated", "poprzez dedykowane konto wakacyjne"),
          ("combined", "z różnych źródeł"),
          ("credit", "z wsparciem kredytu")] savings_method "wybranym sposobem"
  [{ id := "vacation_base"
     title := "Plan finansowania wyjazdu w " ++ timeframe_desc
     description := "Strategia finansowania wakacji o " ++ cost_desc ++ " " ++ method_desc ++ "."
     advisor_type := "financial"
     impact := "medium"
     action_items :=
       ["Określ dokładny budżet wyjazdu uwzględniający wszystkie koszty",
        "Ustal miesięczną kwotę oszczędności niezbędną do realizacji celu",
        "Wyszukuj promocje i oferty first/last minute dla obniżenia kosztów",
        "Zaplanuj rezerwę finansową na nieprzewidziane wydatki podczas wyjazdu"] }] ++
  (if timeframe = "short" then
     [{ id := "vacation_short_term"
        title := "Szybkie zgromadzenie funduszy na wakacje"
        description := "Strategie szybkiego zgromadzenia środków na wyjazd w ciągu 6 miesięcy."
        advisor_type := "financial"
        impact := "medium"
        action_items :=
          ["Zidentyfikuj możliwości ograniczenia wydatków w krótkim terminie",
           "Rozważ przeznaczenie premii lub nadgodzin na cel wakacyjny",
           "Poszukaj okazji cenowych i wczesnych rezerwacji z zaliczką",
           "Tymczasowo zwiększ oszczędności - odłóż na bok 15-20% miesięcznych dochodów"] }]
   else []) ++
  (if cost = "large" ∨ cost = "very_large" then
     [{ id := "vacation_expensive"
        title := "Finansowanie kosztownych wakacji"
        description := "Strategie finansowania droższych wyjazdów wakacyjnych."
        advisor_type := "financial"
        impact := "medium"
        action_items :=
          ["Zaplanuj wyjazd z dużym wyprzedzeniem dla lepszego rozłożenia kosztów",
           "Poszukaj możliwości rezerwacji z zaliczką i płatnością ratalną",
           "Rozważ podróż poza szczytem sezonu dla znaczących oszczędności",
           "Dokładnie porównaj opcje zakwaterowania i transportu pod kątem stosunku jakości do ceny"] }]
   else []) ++
  (if savings_method = "dedicated" then
     [{ id := "vacation_dedicated_account"
        title := "Dedykowane konto wakacyjne"
        description := "Strategie efektywnego wykorzystania dedykowanego konta do oszczędzania na wakacje."
        advisor_type := "financial"
        impact := "medium"
        action_items :=
          ["Otwórz oddzielne konto oszczędnościowe wyłącznie na cel wakacyjny",
           "Ustaw automatyczne przelewy na to konto bezpośrednio po otrzymaniu wynagrodzenia",
           "Ustaw przypomnienia o odkładaniu dodatkowych środków (premie, nadgodziny)",
           "Unikaj korzystania z tych środków na inne cele nawet w przypadku pokus"] }]
   else if savings_method = "credit" then
     [{ id := "vacation_credit"
        title := "Odpowiedzialne finansowanie wakacji kredytem"
        description := "Strategie bezpiecznego wykorzystania kredytu do finansowania wakacji."
        advisor_type := "financial"
        impact := "medium"
        action_items :=
          ["Rozważ kredyt tylko jeśli masz pewność spłaty w krótkim terminie (3-6 miesięcy)",
           "Poszukaj kart kredytowych z programami podróżniczymi i okresem bez odsetek",
           "Dokładnie porównaj koszty kredytu i ustal plan spłaty przed wyjazdem",
           "Odłóż część środków przed wyjazdem, aby zminimalizować kwotę kredytu"] }]
   else []) ++
  [{ id := "vacation_budget_management"
     title := "Zarządzanie budżetem wakacyjnym"
     description := "Strategie efektywnego zarządzania budżetem podczas wyjazdu."
     advisor_type := "financial"
     impact := "low"
     action_items :=
       ["Stwórz szczegółowy plan wydatków na każdy dzień wyjazdu",
        "Monitoruj wydatki podczas podróży używając aplikacji budżetowej",
        "Wymień walutę z wyprzedzeniem, śledząc kursy wymiany",
        "Zaplanuj limity na różne kategorie wydatków (jedzenie, atrakcje, zakupy)"] }]

/-- `_generate_other_goal_recommendations`: one base recommendation,
conditional amount/timeframe and priority extras, and the
`other_goal_tracking` recommendation for everyone. -/
def generate_other_goal_recommendations (amount timeframe priority : String) :
    List FinancialRecommendation :=
  let amount_desc : String :=
    aget [("small", "niższą kwotą (do 5 tys. zł)"),
          ("medium", "średnią kwotą (5-20 tys. zł)"),
          ("large", "wyższą kwotą (20-50 tys. zł)"),
          ("very_large", "wysoką kwotą (powyżej 50 tys. zł)")] amount "wybraną kwotą"
  let timeframe_desc : String :=
    aget [("short", "krótkim czasie (w ciągu 6 miesięcy)"),
          ("medium", "średnim okresie (w ciągu roku)"),
          ("long", "dłuższym okresie (1-3 lata)"),
          ("very_long", "długim okresie (powyżej 3 lat)")] timeframe "planowanym okresie"
  let priority_desc : String :=
    aget [("low", "niskim priorytetem"), ("medium", "średnim priorytetem"),
          ("high", "wysokim priorytetem")] priority "określonym priorytetem"
  [{ id := "other_goal_base"
     title := "Plan realizacji celu finansowego z " ++ amount_desc
     description := "Strategia realizacji celu w " ++ timeframe_desc ++ " o " ++ priority_desc ++ "."
     advisor_type := "financial"
     impact := "medium"
     action_items :=
       ["Określ dokładną kwotę potrzebną do realizacji celu",
        "Ustal miesięczną kwotę oszczędności niezbędną do realizacji celu w założonym czasie",
        "Utwórz dedykowane konto dla tego celu",
        "Przygotuj plan awaryjny w przypadku nieoczekiwanych trudności"] }] ++
  (if (amount = "large" ∨ amount = "very_large") ∧ (timeframe = "short" ∨ timeframe = "medium") then
     [{ id := "other_goal_large_short"
        title := "Szybkie gromadzenie znacznych środków"
        description := "Strategie szybkiego zgromadzenia większej kwoty w krótkim czasie."
        advisor_type := "financial"
        impact := "high"
        action_items :=
          ["Zidentyfikuj możliwości znacznego ograniczenia wydatków w krótkim terminie",
           "Rozważ dodatkowe źródła dochodów (praca dodatkowa, sprzedaż aktywów)",
           "Przeanalizuj możliwość częściowego finansowania z innych źródeł",
           "Ustaw agresywny plan oszczędnościowy z odkładaniem 30-40% dochodów"] }]
   else if (amount = "small" ∨ amount = "medium") ∧ (timeframe = "long" ∨ timeframe = "very_long") then
     [{ id := "other_goal_small_long"
        title := "Systematyczne oszczędzanie małych kwot"
        description := "Strategie regularnego odkładania mniejszych kwot przez dłuższy czas."
        advisor_type := "financial"
        impact := "medium"
        action_items :=
          ["Ustaw niewielkie, ale regularne automatyczne przelewy na konto oszczędnościowe",
           "Wykorzystaj aplikacje do mikro-oszczędzania (np. zaokrąglanie transakcji)",
           "Rozważ odkładanie określonego procentu (np. 5%) każdego przychodu",
           "Zwiększaj kwotę oszczędności przy każdej podwyżce dochodów"] }]
   else []) ++
  (if priority = "high" then
     [{ id := "other_goal_high_priority"
        title := "Realizacja celu o wysokim priorytecie"
        description := "Strategie realizacji finansowych celów o najwyższym priorytecie."
        advisor_type := "financial"
        impact := "high"
        action_items :=
          ["Ustaw ten cel jako priorytetowy w Twoim budżecie - przed wydatkami opcjonalnymi",
           "Rozważ tymczasowe ograniczenie innych celów finansowych",
           "Utwórz dedykowany, widoczny wskaźnik postępu w realizacji celu",
           "Poszukaj optymalnego momentu realizacji celu pod kątem kosztów"] }]
   else if priority = "low" then
     [{ id := "other_goal_low_priority"
        title := "Elastyczne podejście do celu o niższym priorytecie"
        description := "Strategie realizacji celów finansowych o niższym priorytecie."
        advisor_type := "financial"
        impact := "low"
        action_items :=
          ["Ustal niewielką, ale regularną kwotę oszczędności na ten cel",
           "Wykorzystuj nieoczekiwane dodatkowe przychody",
           "Bądź elastyczny co do terminu realizacji celu",
           "Okresowo weryfikuj, czy ten cel nadal jest dla Ciebie istotny"] }]
   else []) ++
  [{ id := "other_goal_tracking"
     title := "Monitorowanie postępów w realizacji celu"
     description := "Strategie efektywnego śledzenia postępów w oszczędzaniu."
     advisor_type := "financial"
     impact := "medium"
     action_items :=
       ["Ustaw miesięczne cele cząstkowe i regularnie monitoruj postępy",
        "Wykorzystaj aplikacje finansowe do wizualizacji postępów",
        "Świętuj osiągnięcie kamieni milowych (np. 25%, 50%, 75% celu)",
        "Regularnie weryfikuj, czy przyjęta strategia oszczędzania jest optymalna"] }]

/-- The fixed generic recommendation produced by the `except` branch of
`_generate_recommendations` when a per-goal generator raises. -/
def error_fallback_recommendation : FinancialRecommendation :=
  { id := "error_fallback"
    title := "Ogólne rekomendacje finansowe"
    description := "Napotkaliśmy problem przy generowaniu spersonalizowanych rekomendacji. Oto ogólne zalecenia finansowe."
    advisor_type := "financial"
    impact := "medium"
    action_items :=
      ["Utrzymuj fundusz awaryjny wynoszący 3-6 miesięcznych wydatków",
       "Regularnie oszczędzaj przynajmniej 20% swoich dochodów",
       "Rozważ dywersyfikację inwestycji między różne klasy aktywów",
       "Korzystaj z dostępnych ulg podatkowych"] }

/-- The body of the `try` block of `_generate_recommendations`: dispatch on
the financial goal, reading the goal-specific answers with their defaults;
a goal matching no branch leaves the recommendation list empty. -/
def goal_recommendations (financial_goal : String) (answers : List (String × String)) :
    List FinancialRecommendation :=
  if financial_goal = "emergency_fund" then
    generate_emergency_fund_recommendations (aget answers "ef_timeframe" "medium")
      (aget answers "ef_amount" "six") (aget answers "ef_savings_method" "automatic")
  else if financial_goal = "debt_reduction" then
    generate_debt_reduction_recommendations (aget answers "debt_type" "credit_card")
      (aget answers "debt_total_amount" "medium") (aget answers "debt_strategy" "avalanche")
  else if financial_goal = "home_purchase" then
    generate_home_purchase_recommendations (aget answers "home_timeframe" "medium")
      (aget answers "home_down_payment" "twenty") (aget answers "home_budget" "medium")
  else if financial_goal = "retirement" then
    generate_retirement_recommendations (aget answers "retirement_age" "standard")
      (aget answers "retirement_current_age" "mid") (aget answers "retirement_vehicle" "combined")
  else if financial_goal = "education" then
    generate_education_recommendations (aget answers "education_timeframe" "medium")
      (aget answers "education_type" "university") (aget answers "education_cost" "medium")
  else if financial_goal = "vacation" then
    generate_vacation_recommendations (aget answers "vacation_timeframe" "medium")
      (aget answers "vacation_cost" "medium") (aget answers "vacation_savings_method" "dedicated")
  else if financial_goal = "other" then
    generate_other_goal_recommendations (aget answers "other_goal_amount" "medium")
      (aget answers "other_timeframe" "medium") (aget answers "other_priority" "medium")
  else []

/-- `_generate_recommendations`, parametrized by the `try`-block body so
the except-branch (internal generator failure ⇒ the one generic fallback)
is part of the model: empty journey or answers give an empty list, a
missing root answer gives an empty list, and a raising generator
(`Except.error`) is replaced by `error_fallback_recommendation`. -/
def generate_recommendations_with
    (gen : String → List (String × String) → Except Unit (List FinancialRecommendation))
    (journey : List String) (answers : List (String × String)) :
    List FinancialRecommendation :=
  if journey.isEmpty ∨ answers.isEmpty then []
  else
    match alookup "root" answers with
    | none => []
    | some financial_goal =>
      match gen financial_goal answers with
      | .ok recs => recs
      | .error _ => [error_fallback_recommendation]

/-- `_generate_recommendations` with the actual (never-raising) per-goal
generators. -/
def generate_recommendations (journey : List String) (answers : List (String × String)) :
    List FinancialRecommendation :=
  generate_recommendations_with (fun g a => .ok (goal_recommendations g a)) journey answers

/-! ## `FinancialDecisionTree.process_step` -/

/-- The mutable `context` dictionary threaded through `process_step`
(only the keys the method reads or writes: `journey`, `answers`,
`financial_goal`). -/
structure TreeContext where
  journey : List String := []
  answers : List (String × String) := []
  financial_goal : Option String := none
  deriving Repr, DecidableEq

/-- `DecisionTreeRequest`. -/
structure DecisionTreeRequest where
  user_id : Nat
  current_node_id : Option String := none
  answer : Option String := none
  context : TreeContext := {}
  deriving Repr, DecidableEq

/-- `DecisionTreeResponse`; `progress` is a rational standing for the
Python float (`len/4` and `min` with 1.0 are exact in floating point on
all occurring values). -/
structure DecisionTreeResponse where
  node : DecisionNode
  progress : ℚ := 0
  recommendations : List FinancialRecommendation := []
  messages : List String := []
  deriving Repr, DecidableEq

/-- Python truthiness of an optional string (`None` and `""` are falsy). -/
def optTruthy : Option String → Bool
  | none => false
  | some s => !s.isEmpty

/-- The `max_steps` chain of `process_step`: every goal maps to 4, as does
the default branch. -/
def max_steps_for (financial_goal : String) : Nat :=
  if financial_goal = "emergency_fund" then 4
  else if financial_goal = "debt_reduction" then 4
  else if financial_goal = "home_purchase" then 4
  else if financial_goal = "retirement" then 4
  else if financial_goal = "education" then 4
  else if financial_goal = "vacation" then 4
  else if financial_goal = "other" then 4
  else 4

/-- Lines 595-597 of `process_step` ("Update answers if an answer was
provided"): record the answer under the current node id when both are
truthy. -/
def process_step_answers (request : DecisionTreeRequest) : List (String × String) :=
  if optTruthy request.current_node_id && optTruthy request.answer then
    ainsert (request.current_node_id.getD "") (request.answer.getD "")
      request.context.answers
  else request.context.answers

/-- Lines 599-611 of `process_step`: resolve the current node and the
(possibly extended) journey.  An empty/absent node id starts at the root
and appends it; otherwise the node is looked up (`none` models the
uncaught `KeyError` on a missing key) and, when an answer is supplied and
the node is a question whose transition map contains the answer, the
session moves to the mapped node which is appended to the journey;
otherwise it stays put. -/
def resolve_node (current_node_id answer : Option String) (journey : List String) :
    Option (DecisionNode × List String) :=
  if !optTruthy current_node_id then
    match alookup "root" decisionTree with
    | some n => some (n, journey ++ ["root"])
    | none => none
  else
    match alookup (current_node_id.getD "") decisionTree with
    | none => none
    | some current_node =>
      if optTruthy answer && (current_node.type == "question") then
        match alookup (answer.getD "") current_node.next_steps with
        | some next_node_id =>
          match alookup next_node_id decisionTree with
          | some next_node => some (next_node, journey ++ [next_node_id])
          | none => none
        | none => some (current_node, journey)
      else some (current_node, journey)

/-- Lines 613-638 of `process_step`: the derived financial goal (kept from
the incoming context when the root is unanswered) and the goal's
`max_steps`. -/
def process_step_goal (answers : List (String × String)) (prev : Option String) :
    Option String × Nat :=
  match alookup "root" answers with
  | some g => (some g, max_steps_for g)
  | none => (prev, 4)

/-- `FinancialDecisionTree.process_step`.  Returns `none` exactly when the
Python code would raise an uncaught `KeyError` (`self.tree[...]` on a
missing key); otherwise returns the response together with the context as
mutated by the call.  Composed of the paragraph helpers above in source
order: record the answer, resolve the node, derive the goal and
`max_steps`, compute progress, and generate recommendations on a
recommendation node. -/
def process_step (request : DecisionTreeRequest) : Option (DecisionTreeResponse × TreeContext) :=
  let answers := process_step_answers request
  match resolve_node request.current_node_id request.answer request.context.journey with
  | none => none
  | some (current_node, journey) =>
    let (financial_goal, max_steps) := process_step_goal answers request.context.financial_goal
    let progress : ℚ := min 1 ((journey.length : ℚ) / (max_steps : ℚ))
    let (recommendations, messages) :=
      if current_node.type == "recommendation" then
        (generate_recommendations journey answers,
         ["Dziękujemy za odpowiedzi. Oto nasze rekomendacje."])
      else ([], [])
    some ({ node := current_node, progress := progress,
            recommendations := recommendations, messages := messages },
          { journey := journey, answers := answers, financial_goal := financial_goal })

/-! ## UserProfileForm (`ai/user_profile_form.py`) -/

/-- A stored field value: Python keeps the parsed `float` for number
fields and the (possibly mapped) string otherwise. -/
inductive FieldValue where
  | num (x : ℚ)
  | str (s : String)
  deriving Repr, DecidableEq

/-- One entry of `financial_fields` / `behavioral_fields`: the static part
of the field dictionary (`question`, `required`, and the optional `type`,
`options` and `mapping` keys; `none` models an absent key). -/
structure FieldSpec where
  name : String
  question : String
  required : Bool
  ftype : Option String := none
  options : Option (List String) := none
  mapping : Option (List (String × String)) := none
  deriving Repr, DecidableEq

/-- The financial fields, in insertion order. -/
def financial_fields : List FieldSpec :=
  [{ name := "age", question := "Ile masz lat?", required := true, ftype := some "number" },
   { name := "country", question := "W jakim kraju mieszkasz?", required := true },
   { name := "region", question := "W jakim województwie/kantonie/stanie mieszkasz?",
     required := false },
   { name := "income", question := "Jakie są Twoje miesięczne dochody (w PLN)?",
     required := true, ftype := some "number" },
   { name := "expenses", question := "Jakie są Twoje miesięczne obowiązkowe wydatki (w PLN)?",
     required := true, ftype := some "number" },
   { name := "savings", question := "Ile wynoszą Twoje oszczędności (w PLN)?",
     required := true, ftype := some "number" },
   { name := "debt", question := "Jakie masz zadłużenia (w PLN)?",
     required := false, ftype := some "number" },
   { name := "investments", question := "W jakie firmy/aktywa obecnie inwestujesz?",
     required := false },
   { name := "investment_horizon", question := "Na jaki okres planujesz inwestycje (w latach)?",
     required := false, ftype := some "number" }]

/-- The behavioral fields, in insertion order. -/
def behavioral_fields : List FieldSpec :=
  [{ name := "risk_tolerance"
     question := "Jak reagujesz na straty finansowe?\n(a) Unikam ich za wszelką cenę\n(b) Akceptuję małe straty\n(c) Akceptuję większe ryzyko dla potencjalnie większych zysków"
     required := true
     options := some ["a", "b", "c"]
     mapping := some [("a", "conservative"), ("b", "moderate"), ("c", "aggressive")] },
   { name := "decision_style"
     question := "Jak podejmujesz ważne decyzje finansowe?\n(a) Analizuję wszystkie dane\n(b) Kieruję się intuicją\n(c) Konsultuję się z innymi\n(d) Szybko podejmuję decyzje"
     required := true
     options := some ["a", "b", "c", "d"]
     mapping := some [("a", "analytical"), ("b", "intuitive"), ("c", "consultative"),
                      ("d", "directive")] },
   { name := "financial_discipline"
     question := "Jak oceniasz swoją dyscyplinę w zarządzaniu budżetem?\n(a) Ściśle trzymam się planu\n(b) Zazwyczaj trzymam się planu z pewnymi wyjątkami\n(c) Często wydaję impulsywnie"
     required := true
     options := some ["a", "b", "c"]
     mapping := some [("a", "strict"), ("b", "flexible"), ("c", "impulsive")] },
   { name := "time_preference"
     question := "Na jaki okres zwykle planujesz swoje finanse?\n(a) Krótkoterminowo (do roku)\n(b) Średnioterminowo (1-5 lat)\n(c) Długoterminowo (powyżej 5 lat)"
     required := true
     options := some ["a", "b", "c"]
     mapping := some [("a", "short_term"), ("b", "medium_term"), ("c", "long_term")] },
   { name := "financial_goal"
     question := "Jaki jest Twój główny cel finansowy?"
     required := true }]

/-- `self.all_fields` in `field_order`: financial first, then behavioral. -/
def form_fields : List FieldSpec := financial_fields ++ behavioral_fields

/-- The mutable state of a `UserProfileForm`: the filled values (an unset
field is simply absent), the question cursor and the completion flag. -/
structure UserProfileForm where
  values : List (String × FieldValue) := []
  current_field_index : Nat := 0
  is_complete : Bool := false
  deriving Repr, DecidableEq

/-- `all_required_fields_filled`. -/
def all_required_fields_filled (st : UserProfileForm) : Bool :=
  form_fields.all (fun f => !f.required || (alookup f.name st.values).isSome)

/-- Rendering of a stored value inside the profile summary (Python
f-string interpolation).  Integral floats print as Python does
(`1000.0`); the repr of non-integral floats is abstracted as the plain
rational since no summary in scope contains one. -/
def renderValue : FieldValue → String
  | .str s => s
  | .num x => if x.den = 1 then toString x.num ++ ".0" else toString x

/-- `_recommend_advisor`: keyword scan of the goal text, then the two
behavioral rules, defaulting to `"financial"`. -/
def recommend_advisor (st : UserProfileForm) : String :=
  if ¬all_required_fields_filled st then "financial"
  else
    let financial_goal :=
      strLower (renderValue ((alookup "financial_goal" st.values).getD (.str "None")))
    if ["podatek", "podatki", "pit", "vat", "cit"].any (fun w => strIn w financial_goal) then
      "tax"
    else if ["prawo", "umowa", "przepisy", "regulacje"].any (fun w => strIn w financial_goal) then
      "legal"
    else if ["inwestycja", "inwestowanie", "giełda", "akcje", "obligacje"].any
        (fun w => strIn w financial_goal) then
      "investment"
    else if alookup "risk_tolerance" st.values = some (.str "aggressive") ∧
        alookup "time_preference" st.values = some (.str "long_term") then
      "investment"
    else if alookup "risk_tolerance" st.values = some (.str "conservative") ∧
        alookup "financial_discipline" st.values = some (.str "strict") then
      "financial"
    else "financial"

/-- `_get_advisor_name`. -/
def get_advisor_name (advisor_type : String) : String :=
  aget [("financial", "Doradca Finansowy"), ("investment", "Doradca Inwestycyjny"),
        ("tax", "Doradca Podatkowy"), ("legal", "Doradca Prawny")]
    advisor_type "Doradca Finansowy"

/-- Label shown in the summary: `field_name.replace("_", " ").capitalize()`
(the names are ASCII and already lower-case, so capitalizing only the
first character coincides with Python). -/
def fieldLabel (name : String) : String :=
  (String.mk (name.data.map (fun c => if c = '_' then ' ' else c))).capitalize

/-- `generate_summary`. -/
def generate_summary (st : UserProfileForm) : String :=
  let financial_lines :=
    financial_fields.foldl (fun acc f =>
      match alookup f.name st.values with
      | none => acc
      | some v =>
        if f.name = "income" ∨ f.name = "expenses" ∨ f.name = "savings" ∨ f.name = "debt" then
          acc ++ "- " ++ fieldLabel f.name ++ ": " ++ renderValue v ++ " PLN\n"
        else
          acc ++ "- " ++ fieldLabel f.name ++ ": " ++ renderValue v ++ "\n") ""
  let behavioral_lines :=
    behavioral_fields.foldl (fun acc f =>
      match alookup f.name st.values with
      | none => acc
      | some v => acc ++ "- " ++ fieldLabel f.name ++ ": " ++ renderValue v ++ "\n") ""
  "Dziękuję za podanie informacji. Oto podsumowanie Twojego profilu finansowego:\n\n" ++
  "Dane finansowe:\n" ++ financial_lines ++
  "\nProfil behawioralny:\n" ++ behavioral_lines ++
  "\nNa podstawie Twojego profilu, przypisujemy Ci doradcę: " ++
  get_advisor_name (recommend_advisor st) ++ "\n" ++
  "\nTeraz możemy rozpocząć interaktywną rozmowę, aby lepiej zrozumieć Twoje potrzeby. Co chciałbyś osiągnąć w swoich finansach? (Możesz opisać swoje cele, obawy lub zadać konkretne pytania)."

/-- `get_next_question`, with an explicit fuel argument standing for the
bounded chain of optional-field skips (each recursive call increments the
cursor while it stays below `form_fields.length`, so
`form_fields.length` fuel always suffices; the fuel-exhausted branch is
unreachable from `get_next_question`). -/
def get_next_question_aux : Nat → UserProfileForm → String × UserProfileForm
  | fuel, st =>
    if st.is_complete then
      ("Formularz został wypełniony. Teraz możemy przejść do spersonalizowanego doradztwa.", st)
    else if st.current_field_index ≥ form_fields.length then
      let st' := { st with is_complete := true }
      (generate_summary st', st')
    else
      let fld := form_fields.getD st.current_field_index
        { name := "", question := "", required := true }
      if !fld.required && all_required_fields_filled st then
        let st' := { st with current_field_index := st.current_field_index + 1 }
        if st'.current_field_index ≥ form_fields.length then
          let st'' := { st' with is_complete := true }
          (generate_summary st'', st'')
        else
          match fuel with
          | 0 => ("", st')
          | fuel' + 1 => get_next_question_aux fuel' st'
      else (fld.question, st)

/-- `UserProfileForm.get_next_question`. -/
def get_next_question (st : UserProfileForm) : String × UserProfileForm :=
  get_next_question_aux form_fields.length st

/-- One scan step of Python `str.replace` with fuel equal to the scanned
length (each step consumes at least one character).  Empty patterns (which
the code never uses) are left unreplaced. -/
def replaceSub (pat rep : List Char) : Nat → List Char → List Char
  | _, [] => []
  | 0, s => s
  | fuel + 1, c :: rest =>
    if !pat.isEmpty && leadMatch pat (c :: rest) then
      rep ++ replaceSub pat rep fuel (List.drop (pat.length - 1) rest)
    else c :: replaceSub pat rep fuel rest

/-- Python `s.replace(pat, rep)` (all non-overlapping occurrences, left to
right). -/
def strReplace (s pat rep : String) : String :=
  ⟨replaceSub pat.data rep.data s.data.length s.data⟩

/-- Digit run to a natural number. -/
def digitsToNat (ds : List Char) : Nat :=
  ds.foldl (fun a c => a * 10 + (c.toNat - 48)) 0

/-- Python `float(s)` on the cleaned answer, as an exact rational:
optional sign, digits with an optional fractional part, optional
exponent; anything else (e.g. `"abc"`) raises `ValueError`, modelled as
`none`.  (`inf`/`nan` and underscore separators are not representable /
never produced by the cleaning step and are omitted.) -/
def parseFloat (s : String) : Option ℚ :=
  let p1 := s.data
  let (sign, p2) : ℚ × List Char :=
    match p1 with
    | '-' :: t => (-1, t)
    | '+' :: t => (1, t)
    | _ => (1, p1)
  let (ip, p3) := p2.span Char.isDigit
  let (fp, p4) : List Char × List Char :=
    match p3 with
    | '.' :: t => t.span Char.isDigit
    | _ => ([], p3)
  if ip.isEmpty && fp.isEmpty then none
  else
    let mant : ℚ := (digitsToNat ip : ℚ) + (digitsToNat fp : ℚ) / ((10 : ℚ) ^ fp.length)
    match p4 with
    | [] => some (sign * mant)
    | e :: t =>
      if e = 'e' ∨ e = 'E' then
        let (eneg, t') : Bool × List Char :=
          match t with
          | '-' :: u => (true, u)
          | '+' :: u => (false, u)
          | _ => (false, t)
        let (ed, t'') := t'.span Char.isDigit
        if ed.isEmpty || !t''.isEmpty then none
        else if eneg then some (sign * mant / ((10 : ℚ) ^ digitsToNat ed))
        else some (sign * mant * ((10 : ℚ) ^ digitsToNat ed))
      else none

/-- `UserProfileForm.process_answer`: validate against the current field
(choice set, or numeric after stripping currency markers/spaces and
normalizing commas), re-prompt without advancing on failure, otherwise
store the (mapped or coerced) value, advance the cursor and delegate to
`get_next_question`. -/
def process_answer (st : UserProfileForm) (answer : String) : String × UserProfileForm :=
  if st.is_complete then ("Formularz jest już wypełniony. W czym mogę Ci pomóc?", st)
  else if st.current_field_index ≥ form_fields.length then
    let st' := { st with is_complete := true }
    (generate_summary st', st')
  else
    let fld := form_fields.getD st.current_field_index
      { name := "", question := "", required := true }
    let checked : Except String FieldValue :=
      match fld.options with
      | some opts =>
        if !opts.contains (strLower answer) then
          .error ("Proszę wybrać jedną z dostępnych opcji: " ++ String.intercalate ", " opts ++ ".")
        else .ok (.str answer)
      | none =>
        if fld.ftype = some "number" then
          let clean_answer :=
            strReplace (strReplace (strReplace (strReplace answer "zł" "") "PLN" "") " " "") "," "."
          match parseFloat clean_answer with
          | some x => .ok (.num x)
          | none => .error "Proszę podać wartość liczbową."
        else .ok (.str answer)
    match checked with
    | .error validation_message => (validation_message ++ "\n" ++ fld.question, st)
    | .ok value =>
      let stored : FieldValue :=
        match fld.mapping with
        | some mp =>
          match alookup (strLower answer) mp with
          | some mapped => .str mapped
          | none => value
        | none => value
      let st' := { st with values := ainsert fld.name stored st.values,
                           current_field_index := st.current_field_index + 1 }
      get_next_question st'

/-- `is_form_complete`. -/
def is_form_complete (st : UserProfileForm) : Bool := st.is_complete

/-! ## Structural facts about the static tree -/

/-- Distance of each node from the root along the tree's transitions
(root 0, three question levels, recommendation level 4). -/
def nodeDepthTable : List (String × Nat) :=
  [("root", 0),
   ("ef_timeframe", 1), ("ef_amount", 2), ("ef_savings_method", 3), ("ef_recommendation", 4),
   ("debt_type", 1), ("debt_total_amount", 2), ("debt_strategy", 3), ("debt_recommendation", 4),
   ("home_timeframe", 1), ("home_down_payment", 2), ("home_budget", 3), ("home_recommendation", 4),
   ("retirement_age", 1), ("retirement_current_age", 2), ("retirement_vehicle", 3),
   ("retirement_recommendation", 4),
   ("education_timeframe", 1), ("education_type", 2), ("education_cost", 3),
   ("education_recommendation", 4),
   ("vacation_timeframe", 1), ("vacation_cost", 2), ("vacation_savings_method", 3),
   ("vacation_recommendation", 4),
   ("other_goal_amount", 1), ("other_timeframe", 2), ("other_priority", 3),
   ("other_recommendation", 4)]

/-- Depth of a node id (0 for ids outside the tree). -/
def nodeDepth (id : String) : Nat := aget nodeDepthTable id 0

instance : Inhabited DecisionNode := ⟨{ id := "" }⟩

/-! ## Session-driver harness for whole-traversal claims

The API layer drives `process_step` by feeding back the returned node's id
and the mutated context each turn; the following definitions replay such a
call sequence so properties of complete traversals can be stated. -/

/-- The follow-up request a caller issues after receiving `rc`, answering
`a` at the node the previous response displayed. -/
def step_request (uid : Nat) (rc : DecisionTreeResponse × TreeContext) (a : String) :
    DecisionTreeRequest :=
  { user_id := uid, current_node_id := some rc.1.node.id, answer := some a, context := rc.2 }

/-- Replay a list of answers from a given response/context pair. -/
def run_from (uid : Nat) :
    DecisionTreeResponse × TreeContext → List String → Option (DecisionTreeResponse × TreeContext)
  | rc, [] => some rc
  | rc, a :: rest =>
    match process_step (step_request uid rc a) with
    | none => none
    | some rc' => run_from uid rc' rest

/-- A whole session: the initial call with empty node id, then the answers
in order. -/
def run_session (uid : Nat) (answers : List String) :
    Option (DecisionTreeResponse × TreeContext) :=
  match process_step { user_id := uid } with
  | none => none
  | some rc => run_from uid rc answers

/-- An answer list is valid from `rc` when every answer is a non-empty key
of the then-current node's transition map (the claims' "always answering
with an option in the current node's transition map"). -/
def valid_run (uid : Nat) : DecisionTreeResponse × TreeContext → List String → Bool
  | _, [] => true
  | rc, a :: rest =>
    !(a == "") && (alookup a rc.1.node.next_steps).isSome &&
    (match process_step (step_request uid rc a) with
     | none => false
     | some rc' => valid_run uid rc' rest)

/-- Validity of a whole session's answer list. -/
def valid_session (uid : Nat) (answers : List String) : Bool :=
  match process_step { user_id := uid } with
  | none => false
  | some rc => valid_run uid rc answers

/-- Invariant of the session driver: the displayed node is the tree node
registered under its id, and the journey length is the node's depth plus
one. -/
def GoodRC (rc : DecisionTreeResponse × TreeContext) : Prop :=
  alookup rc.1.node.id decisionTree = some rc.1.node ∧
  rc.2.journey.length = nodeDepth rc.1.node.id + 1

/-- The id of the one "base" recommendation emitted for each goal. -/
def goal_base_id : String → String
  | "emergency_fund" => "emergency_fund_base"
  | "debt_reduction" => "debt_reduction_base"
  | "home_purchase" => "home_purchase_base"
  | "retirement" => "retirement_base"
  | "education" => "education_base"
  | "vacation" => "vacation_base"
  | "other" => "other_goal_base"
  | _ => ""

/-- The id of the recommendation appended for everyone on a goal's paths
(`none` for education, whose generator has no such common tail). -/
def goal_common_id : String → Option String
  | "emergency_fund" => some "emergency_fund_location"
  | "debt_reduction" => some "debt_budget_discipline"
  | "home_purchase" => some "home_purchase_preparation"
  | "retirement" => some "retirement_diversification"
  | "vacation" => some "vacation_budget_management"
  | "other" => some "other_goal_tracking"
  | _ => none

theorem decisionTree_ids : ∀ p ∈ decisionTree, p.2.id = p.1 := by decide

theorem decisionTree_keys_ne : ∀ p ∈ decisionTree,
    p.1 ≠ "" ∧ ∀ q ∈ p.2.next_steps, q.1 ≠ "" := by decide

theorem decisionTree_types : ∀ p ∈ decisionTree,
    p.2.type = "question" ∨ p.2.type = "recommendation" := by decide

theorem decisionTree_step_depth : ∀ p ∈ decisionTree, p.2.type = "question" →
    ∀ q ∈ p.2.next_steps, (alookup q.2 decisionTree).isSome = true ∧
      nodeDepth q.2 = nodeDepth p.1 + 1 := by decide

theorem decisionTree_rec_iff_depth : ∀ p ∈ decisionTree,
    (p.2.type = "recommendation" ↔ nodeDepth p.1 = 4) := by decide

theorem decisionTree_steps_question : ∀ p ∈ decisionTree,
    p.2.next_steps ≠ [] → p.2.type = "question" := by decide

theorem alookup_mem {β : Type} {k : String} {v : β} :
    ∀ {l : List (String × β)}, alookup k l = some v → (k, v) ∈ l := by
  intro l
  induction l with
  | nil => simp [alookup]
  | cons p rest ih =>
    obtain ⟨k', v'⟩ := p
    intro h
    simp only [alookup] at h
    split at h
    · next heq =>
      subst heq
      injection h with h
      subst h
      exact List.mem_cons_self _ _
    · exact List.mem_cons_of_mem _ (ih h)

theorem alookup_ainsert_same {β : Type} (k : String) (v : β) (l : List (String × β)) :
    alookup k (ainsert k v l) = some v := by
  induction l with
  | nil => simp [alookup, ainsert]
  | cons p rest ih =>
    obtain ⟨k', v'⟩ := p
    simp only [ainsert]
    by_cases hk : k' = k
    · subst hk
      simp [alookup]
    · simp only [if_neg hk, alookup]
      exact ih

theorem alookup_ainsert_ne {β : Type} {k k' : String} (hne : k' ≠ k) (v : β)
    (l : List (String × β)) : alookup k (ainsert k' v l) = alookup k l := by
  induction l with
  | nil => simp [alookup, ainsert, hne]
  | cons p rest ih =>
    obtain ⟨k'', v''⟩ := p
    simp only [ainsert]
    by_cases hk : k'' = k'
    · subst hk
      simp only [if_pos rfl, alookup]
      rw [if_neg hne, if_neg hne]
    · simp only [if_neg hk, alookup]
      by_cases hkk : k'' = k
      · simp [hkk]
      · rw [if_neg hkk, if_neg hkk]
        exact ih

theorem determine_advisor_eq (message : String) :
    determine_advisor_from_message message =
      (if tax_keywords.any (fun k => strIn k (strLower message)) then "tax"
       else if legal_keywords.any (fun k => strIn k (strLower message)) then "legal"
       else if investment_keywords.any (fun k => strIn k (strLower message)) then "investment"
       else if financial_keywords.any (fun k => strIn k (strLower message)) then "financial"
       else "financial") := rfl

theorem max_steps_for_eq (g : String) : max_steps_for g = 4 := by
  unfold max_steps_for
  split_ifs <;> rfl

theorem process_step_goal_snd (answers : List (String × String)) (prev : Option String) :
    (process_step_goal answers prev).2 = 4 := by
  unfold process_step_goal
  split <;> simp [max_steps_for_eq]

theorem optTruthy_some {s : String} (h : s ≠ "") : optTruthy (some s) = true := by
  show (!s.isEmpty) = true
  cases he : s.isEmpty with
  | false => rfl
  | true => exact absurd ((String.isEmpty_iff _).mp he) h

/-- Full characterization of a successful `process_step` call in terms of
the resolved node and journey. -/
theorem process_step_run (req : DecisionTreeRequest) (n : DecisionNode) (j : List String)
    (h : resolve_node req.current_node_id req.answer req.context.journey = some (n, j)) :
    process_step req = some (
      { node := n,
        progress := min 1 ((j.length : ℚ) / 4),
        recommendations :=
          if n.type == "recommendation" then
            generate_recommendations j (process_step_answers req)
          else [],
        messages :=
          if n.type == "recommendation" then
            ["Dziękujemy za odpowiedzi. Oto nasze rekomendacje."]
          else [] },
      { journey := j, answers := process_step_answers req,
        financial_goal :=
          (process_step_goal (process_step_answers req) req.context.financial_goal).1 }) := by
  unfold process_step
  rw [h]
  cases hg : process_step_goal (process_step_answers req) req.context.financial_goal with
  | mk fg ms =>
    have hms : ms = 4 := by
      have h4 := process_step_goal_snd (process_step_answers req) req.context.financial_goal
      rw [hg] at h4
      exact h4
    subst hms
    cases hrec : (n.type == "recommendation") <;> simp [hg, hrec]

theorem resolve_node_start (cni a : Option String) (j : List String)
    (hcni : optTruthy cni = false) (rn : DecisionNode)
    (hroot : alookup "root" decisionTree = some rn) :
    resolve_node cni a j = some (rn, j ++ ["root"]) := by
  unfold resolve_node
  simp [hcni, hroot]

theorem resolve_node_transition (cni a : Option String) (j : List String)
    (n n' : DecisionNode) (nxt : String)
    (hcni : optTruthy cni = true)
    (hn : alookup (cni.getD "") decisionTree = some n)
    (ha : optTruthy a = true)
    (hq : n.type = "question")
    (hnxt : alookup (a.getD "") n.next_steps = some nxt)
    (hn' : alookup nxt decisionTree = some n') :
    resolve_node cni a j = some (n', j ++ [nxt]) := by
  unfold resolve_node
  simp [hcni, hn, hnxt, hn', hq, ha]

theorem resolve_node_stay_nomatch (cni a : Option String) (j : List String)
    (n : DecisionNode)
    (hcni : optTruthy cni = true)
    (hn : alookup (cni.getD "") decisionTree = some n)
    (hnxt : alookup (a.getD "") n.next_steps = none) :
    resolve_node cni a j = some (n, j) := by
  unfold resolve_node
  cases hb : (optTruthy a && (n.type == "question"))
  · simp [hcni, hn, hb]
  · simp [hcni, hn, hb, hnxt]

theorem resolve_node_stay_noanswer (cni a : Option String) (j : List String)
    (n : DecisionNode)
    (hcni : optTruthy cni = true)
    (hn : alookup (cni.getD "") decisionTree = some n)
    (ha : optTruthy a = false) :
    resolve_node cni a j = some (n, j) := by
  unfold resolve_node
  simp [hcni, hn, ha]

theorem alookup_ne_nil {β : Type} {k : String} {v : β} {l : List (String × β)}
    (h : alookup k l = some v) : l ≠ [] := by
  intro hl
  subst hl
  simp [alookup] at h

/-- `resolve_node` (and hence `process_step`) fails exactly on a truthy
current node id that is not a key of the tree: the root always exists and,
by closure of the tree, a transition target always exists. -/
theorem resolve_node_none_iff (cni a : Option String) (j : List String) :
    resolve_node cni a j = none ↔
      optTruthy cni = true ∧ alookup (cni.getD "") decisionTree = none := by
  constructor
  · intro h
    by_cases hcni : optTruthy cni = true
    · refine ⟨hcni, ?_⟩
      cases hn : alookup (cni.getD "") decisionTree with
      | none => rfl
      | some n =>
        exfalso
        unfold resolve_node at h
        rw [hcni] at h
        simp only [Bool.not_true, Bool.false_eq_true, if_false, hn] at h
        cases hb : (optTruthy a && (n.type == "question")) with
        | false => simp [hb] at h
        | true =>
          simp only [hb, if_true] at h
          cases hnxt : alookup (a.getD "") n.next_steps with
          | none => simp [hnxt] at h
          | some nxt =>
            have hq : n.type = "question" := by
              have hb2 := ((Bool.and_eq_true _ _).mp hb).2
              exact eq_of_beq hb2
            have hmem : (cni.getD "", n) ∈ decisionTree := alookup_mem hn
            have hxmem : (a.getD "", nxt) ∈ n.next_steps := alookup_mem hnxt
            have hsome := (decisionTree_step_depth _ hmem hq _ hxmem).1
            obtain ⟨n', hn'⟩ := Option.isSome_iff_exists.mp hsome
            simp [hnxt, hn'] at h
    · exfalso
      have hcni' : optTruthy cni = false := by
        cases hcb : optTruthy cni
        · rfl
        · exact absurd hcb hcni
      have hroot : alookup "root" decisionTree = some ((decisionTree.headD default).2) := rfl
      rw [resolve_node_start cni a j hcni' _ hroot] at h
      exact Option.noConfusion h
  · rintro ⟨hcni, hn⟩
    unfold resolve_node
    simp [hcni, hn]

/-! ## Claim theorems -/

/-- C1: the intent classifier `_determine_advisor_from_message` is total
and (being a function) deterministic: every message yields exactly one of
tax/legal/investment/financial; the keyword sets are consulted on the
lower-cased message in the priority order tax > legal > investment >
financial; and a message with no tagged keyword, such as "hello", yields
"financial". -/
theorem classify_intent_total_priority :
    (∀ message : String,
      determine_advisor_from_message message = "tax" ∨
      determine_advisor_from_message message = "legal" ∨
      determine_advisor_from_message message = "investment" ∨
      determine_advisor_from_message message = "financial") ∧
    (∀ message : String,
      (tax_keywords.any (fun k => strIn k (strLower message)) = true →
        determine_advisor_from_message message = "tax") ∧
      (tax_keywords.any (fun k => strIn k (strLower message)) = false →
       legal_keywords.any (fun k => strIn k (strLower message)) = true →
        determine_advisor_from_message message = "legal") ∧
      (tax_keywords.any (fun k => strIn k (strLower message)) = false →
       legal_keywords.any (fun k => strIn k (strLower message)) = false →
       investment_keywords.any (fun k => strIn k (strLower message)) = true →
        determine_advisor_from_message message = "investment") ∧
      (tax_keywords.any (fun k => strIn k (strLower message)) = false →
       legal_keywords.any (fun k => strIn k (strLower message)) = false →
       investment_keywords.any (fun k => strIn k (strLower message)) = false →
        determine_advisor_from_message message = "financial")) ∧
    determine_advisor_from_message "hello" = "financial" := by
  refine ⟨fun message => ?_, fun message => ?_, by decide⟩
  · rw [determine_advisor_eq]
    split_ifs <;> simp
  · refine ⟨fun h1 => ?_, fun h1 h2 => ?_, fun h1 h2 h3 => ?_, fun h1 h2 h3 => ?_⟩
    · simp [determine_advisor_eq, h1]
    · simp [determine_advisor_eq, h1, h2]
    · simp [determine_advisor_eq, h1, h2, h3]
    · simp [determine_advisor_eq, h1, h2, h3, ite_self]

/-- Witness for C1 at concrete inputs: "hello" has no tagged keyword and
classifies as financial; a message containing the tax keyword "podatek"
classifies as tax. -/
theorem classify_intent_total_priority_witness :
    determine_advisor_from_message "hello" = "financial" ∧
    determine_advisor_from_message "Jaki podatek zapłacę?" = "tax" :=
  ⟨classify_intent_total_priority.2.2,
   (classify_intent_total_priority.2.1 "Jaki podatek zapłacę?").1 (by decide)⟩

/-- C9 counterexample: the claim says `check_decision_tree_readiness`
returns `ready_for_tree = true` for the message "show me options", but the
trigger phrase lists are Polish, so this English message matches nothing
and the call returns `ready_for_tree = false`. -/
theorem tree_readiness_counterexample :
    (check_decision_tree_readiness "show me options" none).ready_for_tree = false := by
  decide

/-- C9 amended: the readiness triggers are Polish-only.  The Polish
structured-guidance request "pokaż opcje" is detected as ready, while both
"show me options" and "what's the weather" return not ready. -/
theorem tree_readiness_examples :
    (check_decision_tree_readiness "pokaż opcje" none).ready_for_tree = true ∧
    (check_decision_tree_readiness "show me options" none).ready_for_tree = false ∧
    (check_decision_tree_readiness "what\x27s the weather" none).ready_for_tree = false := by
  decide

/-- C10: the static decision tree is closed under its transitions: every
`next_steps` target of every question node is itself a key of the tree, so
traversals that follow declared options never leave the node set. -/
theorem decision_tree_closed :
    ∀ p ∈ decisionTree, p.2.type = "question" →
      ∀ q ∈ p.2.next_steps, (alookup q.2 decisionTree).isSome = true := by
  decide

/-- C3 counterexample: `process_step` does raise for an unknown node id —
the lookup `self.tree[current_node_id]` has no try/except around it, so a
request naming the node "nonexistent" propagates a `KeyError` (modelled as
`none`) instead of returning a fallback-node response. -/
theorem process_step_unknown_node_counterexample :
    process_step { user_id := 1, current_node_id := some "nonexistent" } = none := by
  rfl

/-- C3 amended: `process_step` raises (returns no response) exactly when
`current_node_id` is non-empty and not a key of the static tree; every
other request — empty node id, known node id, any answer — returns a
response (the root always exists and transition targets exist by tree
closure).  No fallback node is substituted in the failing case. -/
theorem process_step_none_characterization :
    ∀ req : DecisionTreeRequest,
      process_step req = none ↔
        (optTruthy req.current_node_id = true ∧
         alookup (req.current_node_id.getD "") decisionTree = none) := by
  intro req
  cases hr : resolve_node req.current_node_id req.answer req.context.journey with
  | none =>
    constructor
    · intro _
      exact (resolve_node_none_iff _ _ _).mp hr
    · intro _
      unfold process_step
      rw [hr]
  | some p =>
    obtain ⟨n, j⟩ := p
    rw [process_step_run req n j hr]
    constructor
    · intro hcontra
      exact Option.noConfusion hcontra
    · intro hrhs
      have := (resolve_node_none_iff req.current_node_id req.answer req.context.journey).mpr hrhs
      rw [hr] at this
      exact Option.noConfusion this

/-- C2: for a call naming a question node of the tree, an answer that is a
key of the node's transition map moves the session to the mapped successor
and appends exactly that successor's id to the journey, while an answer
absent from the map leaves the session on the same node with the journey
unchanged. -/
theorem process_step_question_transitions :
    ∀ (uid : Nat) (nid a : String) (n : DecisionNode) (ctx : TreeContext),
      nid ≠ "" →
      alookup nid decisionTree = some n →
      n.type = "question" →
      ((∀ nxt, alookup a n.next_steps = some nxt →
        ∃ n', alookup nxt decisionTree = some n' ∧
          (process_step
              { user_id := uid, current_node_id := some nid, answer := some a,
                context := ctx }).map (fun rc => (rc.1.node, rc.2.journey)) =
            some (n', ctx.journey ++ [nxt])) ∧
       (alookup a n.next_steps = none →
        (process_step
            { user_id := uid, current_node_id := some nid, answer := some a,
              context := ctx }).map (fun rc => (rc.1.node, rc.2.journey)) =
          some (n, ctx.journey))) := by
  intro uid nid a n ctx hnid hn hq
  constructor
  · intro nxt hnxt
    have hmem : (nid, n) ∈ decisionTree := alookup_mem hn
    have hxmem : (a, nxt) ∈ n.next_steps := alookup_mem hnxt
    have ha : a ≠ "" := (decisionTree_keys_ne _ hmem).2 _ hxmem
    have hsome := (decisionTree_step_depth _ hmem hq _ hxmem).1
    obtain ⟨n', hn'⟩ := Option.isSome_iff_exists.mp hsome
    refine ⟨n', hn', ?_⟩
    have hres := resolve_node_transition (some nid) (some a) ctx.journey n n' nxt
      (optTruthy_some hnid) hn (optTruthy_some ha) hq hnxt hn'
    rw [process_step_run _ n' (ctx.journey ++ [nxt]) hres]
    rfl
  · intro hnone
    have hres := resolve_node_stay_nomatch (some nid) (some a) ctx.journey n
      (optTruthy_some hnid) hn hnone
    rw [process_step_run _ n ctx.journey hres]
    rfl

/-- Witness for C2: answering "emergency_fund" at the root moves to
`ef_timeframe` and appends exactly it to the journey. -/
theorem process_step_question_transitions_witness :
    ∃ n', alookup "ef_timeframe" decisionTree = some n' ∧
      (process_step
          { user_id := 1, current_node_id := some "root",
            answer := some "emergency_fund", context := {} }).map
        (fun rc => (rc.1.node, rc.2.journey)) = some (n', ["ef_timeframe"]) :=
  (process_step_question_transitions 1 "root" "emergency_fund"
      ((decisionTree.headD default).2) {} (by decide) rfl rfl).1 "ef_timeframe" rfl

theorem resolve_node_journey (cni a : Option String) (j : List String)
    (n : DecisionNode) (j' : List String)
    (h : resolve_node cni a j = some (n, j')) :
    j' = j ∨ ∃ x, j' = j ++ [x] := by
  unfold resolve_node at h
  split at h
  · split at h
    · next heq =>
      injection h with h1
      right
      exact ⟨"root", (congrArg Prod.snd h1).symm⟩
    · exact Option.noConfusion h
  · split at h
    · exact Option.noConfusion h
    · split at h
      · split at h
        · split at h
          · injection h with h1
            right
            exact ⟨_, (congrArg Prod.snd h1).symm⟩
          · exact Option.noConfusion h
        · injection h with h1
          left
          exact (congrArg Prod.snd h1).symm
      · injection h with h1
        left
        exact (congrArg Prod.snd h1).symm

/-- C6: every successful `process_step` response carries
`progress = min(1.0, journey_length / 4)` for the post-call journey (every
goal's `max_steps` is 4), progress never exceeds 1.0, the journey never
shrinks, and across successive calls of one session (the next call using
the context the previous call produced) progress is monotonically
non-decreasing. -/
theorem process_step_progress_capped_monotone :
    ∀ (req : DecisionTreeRequest) (resp : DecisionTreeResponse) (ctx' : TreeContext),
      process_step req = some (resp, ctx') →
      resp.progress = min 1 ((ctx'.journey.length : ℚ) / 4) ∧
      resp.progress ≤ 1 ∧
      req.context.journey.length ≤ ctx'.journey.length ∧
      ∀ (req₂ : DecisionTreeRequest) (resp₂ : DecisionTreeResponse) (ctx₂ : TreeContext),
        req₂.context = ctx' → process_step req₂ = some (resp₂, ctx₂) →
        resp.progress ≤ resp₂.progress := by
  intro req resp ctx' h
  cases hr : resolve_node req.current_node_id req.answer req.context.journey with
  | none =>
    rw [process_step, hr] at h
    exact Option.noConfusion h
  | some p =>
    obtain ⟨n, j⟩ := p
    rw [process_step_run req n j hr] at h
    injection h with h1
    have hresp : resp = _ := (congrArg Prod.fst h1).symm
    have hctx : ctx' = _ := (congrArg Prod.snd h1).symm
    have hprog : resp.progress = min 1 ((j.length : ℚ) / 4) := by rw [hresp]
    have hjour : ctx'.journey = j := by rw [hctx]
    have hgrow : req.context.journey.length ≤ j.length := by
      rcases resolve_node_journey _ _ _ _ _ hr with hsame | ⟨x, happ⟩
      · rw [hsame]
      · rw [happ]
        simp
    refine ⟨by rw [hprog, hjour], ?_, by rw [hjour]; exact hgrow, ?_⟩
    · rw [hprog]
      exact min_le_left _ _
    · intro req₂ resp₂ ctx₂ hc2 h2
      cases hr₂ : resolve_node req₂.current_node_id req₂.answer req₂.context.journey with
      | none =>
        rw [process_step, hr₂] at h2
        exact Option.noConfusion h2
      | some p₂ =>
        obtain ⟨n₂, j₂⟩ := p₂
        rw [process_step_run req₂ n₂ j₂ hr₂] at h2
        injection h2 with h21
        have hresp₂ : resp₂ = _ := (congrArg Prod.fst h21).symm
        have hprog₂ : resp₂.progress = min 1 ((j₂.length : ℚ) / 4) := by rw [hresp₂]
        have hgrow₂ : req₂.context.journey.length ≤ j₂.length := by
          rcases resolve_node_journey _ _ _ _ _ hr₂ with hsame | ⟨x, happ⟩
          · rw [hsame]
          · rw [happ]
            simp
        rw [hc2, hjour] at hgrow₂
        rw [hprog, hprog₂]
        have hle : (j.length : ℚ) / 4 ≤ (j₂.length : ℚ) / 4 := by
          apply div_le_div_of_nonneg_right ?_ (by norm_num)
          exact_mod_cast hgrow₂
        exact min_le_min le_rfl hle

/-- Witness for C6: the initial call's progress is at most 1. -/
theorem process_step_progress_capped_monotone_witness :
    (process_step { user_id := 1 }).elim False (fun rc => rc.1.progress ≤ 1) := by
  have hres : resolve_node (none : Option String) none ([] : List String) =
      some ((decisionTree.headD default).2, ["root"]) := rfl
  have h := process_step_run { user_id := 1 } _ _ hres
  rw [h]
  exact (process_step_progress_capped_monotone { user_id := 1 } _ _ h).2.1

/-- C4 counterexample: the goal is not immutable — a later call that
names the root with a different non-empty answer overwrites the stored
root answer and the derived financial_goal.  A session whose goal was set
to emergency_fund processes `(current_node_id="root",
answer="debt_reduction")` and afterwards reports debt_reduction in both
places. -/
theorem root_goal_overwrite_counterexample :
    (process_step
        { user_id := 1, current_node_id := some "root", answer := some "debt_reduction",
          context := { journey := ["root", "ef_timeframe"],
                       answers := [("root", "emergency_fund")],
                       financial_goal := some "emergency_fund" } }).map
      (fun rc => (alookup "root" rc.2.answers, rc.2.financial_goal)) =
      some (some "debt_reduction", some "debt_reduction") := by
  decide

/-- C4 amended: the stored root answer and derived financial_goal, once
set, are preserved by every later `process_step` call that does not supply
`current_node_id = "root"` together with a non-empty answer (a call that
does overwrites both, as the counterexample shows). -/
theorem root_goal_preserved :
    ∀ (req : DecisionTreeRequest) (resp : DecisionTreeResponse) (ctx' : TreeContext) (g : String),
      alookup "root" req.context.answers = some g →
      (req.current_node_id = some "root" → optTruthy req.answer = false) →
      process_step req = some (resp, ctx') →
      alookup "root" ctx'.answers = some g ∧ ctx'.financial_goal = some g := by
  intro req resp ctx' g hg hnr h
  have hctx : ctx'.answers = process_step_answers req ∧
      ctx'.financial_goal =
        (process_step_goal (process_step_answers req) req.context.financial_goal).1 := by
    cases hr : resolve_node req.current_node_id req.answer req.context.journey with
    | none =>
      rw [process_step, hr] at h
      exact Option.noConfusion h
    | some p =>
      obtain ⟨n, j⟩ := p
      rw [process_step_run req n j hr] at h
      injection h with h1
      have hctx2 : ctx' = _ := (congrArg Prod.snd h1).symm
      rw [hctx2]
      exact ⟨rfl, rfl⟩
  have hroot' : alookup "root" (process_step_answers req) = some g := by
    unfold process_step_answers
    cases hb : (optTruthy req.current_node_id && optTruthy req.answer) with
    | false => simpa [hb] using hg
    | true =>
      simp only [hb, if_true]
      have hcni := ((Bool.and_eq_true _ _).mp hb).1
      have hat := ((Bool.and_eq_true _ _).mp hb).2
      have hkey : req.current_node_id.getD "" ≠ "root" := by
        intro hk
        cases hc : req.current_node_id with
        | none =>
          rw [hc] at hcni
          exact Bool.noConfusion hcni
        | some s =>
          rw [hc] at hk
          simp only [Option.getD] at hk
          subst hk
          have hfalse := hnr hc
          rw [hfalse] at hat
          exact Bool.noConfusion hat
      rw [alookup_ainsert_ne hkey]
      exact hg
  refine ⟨by rw [hctx.1]; exact hroot', ?_⟩
  rw [hctx.2]
  unfold process_step_goal
  rw [hroot']

/-- Witness for C4: a mid-session call answering at `ef_timeframe`
preserves the emergency-fund goal. -/
theorem root_goal_preserved_witness :
    (process_step
        { user_id := 1, current_node_id := some "ef_timeframe", answer := some "short",
          context := { journey := ["root", "ef_timeframe"],
                       answers := [("root", "emergency_fund")],
                       financial_goal := some "emergency_fund" } }).elim False
      (fun rc => alookup "root" rc.2.answers = some "emergency_fund" ∧
        rc.2.financial_goal = some "emergency_fund") := by
  have h := process_step_run
    { user_id := 1, current_node_id := some "ef_timeframe", answer := some "short",
      context := { journey := ["root", "ef_timeframe"],
                   answers := [("root", "emergency_fund")],
                   financial_goal := some "emergency_fund" } } _ _ rfl
  rw [h]
  simp only [Option.elim]
  exact root_goal_preserved
    { user_id := 1, current_node_id := some "ef_timeframe", answer := some "short",
      context := { journey := ["root", "ef_timeframe"],
                   answers := [("root", "emergency_fund")],
                   financial_goal := some "emergency_fund" } }
    _ _ "emergency_fund" rfl (fun hc => absurd hc (by decide)) h

theorem run_init_good (uid : Nat) (rc : DecisionTreeResponse × TreeContext)
    (h : process_step { user_id := uid } = some rc) : GoodRC rc := by
  have hres : resolve_node (none : Option String) none ([] : List String) =
      some ((decisionTree.headD default).2, ["root"]) := rfl
  have h2 := process_step_run { user_id := uid } _ _ hres
  rw [h2] at h
  injection h with h1
  rw [← h1]
  exact ⟨rfl, rfl⟩

theorem run_step_good (uid : Nat) (rc : DecisionTreeResponse × TreeContext) (a : String)
    (hg : GoodRC rc) (ha : a ≠ "") (nxt : String)
    (hnxt : alookup a rc.1.node.next_steps = some nxt) :
    ∃ rc', process_step (step_request uid rc a) = some rc' ∧ GoodRC rc' ∧
      rc'.2.journey.length = rc.2.journey.length + 1 := by
  obtain ⟨hin, hlen⟩ := hg
  have hmem : (rc.1.node.id, rc.1.node) ∈ decisionTree := alookup_mem hin
  have hxmem : (a, nxt) ∈ rc.1.node.next_steps := alookup_mem hnxt
  have hnid : rc.1.node.id ≠ "" := (decisionTree_keys_ne _ hmem).1
  have hq : rc.1.node.type = "question" := by
    apply decisionTree_steps_question _ hmem
    intro hempty
    rw [hempty] at hxmem
    exact List.not_mem_nil _ hxmem
  have hstep := decisionTree_step_depth _ hmem hq _ hxmem
  obtain ⟨n', hn'⟩ := Option.isSome_iff_exists.mp hstep.1
  have hdep : nodeDepth nxt = nodeDepth rc.1.node.id + 1 := hstep.2
  have hid : n'.id = nxt := decisionTree_ids _ (alookup_mem hn')
  have hres := resolve_node_transition (some rc.1.node.id) (some a) rc.2.journey
    rc.1.node n' nxt (optTruthy_some hnid) hin (optTruthy_some ha) hq hnxt hn'
  have hrun := process_step_run (step_request uid rc a) n' (rc.2.journey ++ [nxt]) hres
  refine ⟨_, hrun, ⟨?_, ?_⟩, ?_⟩
  · show alookup n'.id decisionTree = some n'
    rw [hid]
    exact hn'
  · show (rc.2.journey ++ [nxt]).length = nodeDepth n'.id + 1
    rw [hid, hdep]
    simp only [List.length_append, List.length_cons, List.length_nil]
    omega
  · show (rc.2.journey ++ [nxt]).length = rc.2.journey.length + 1
    simp

theorem run_from_good (uid : Nat) :
    ∀ (ans : List String) (rc : DecisionTreeResponse × TreeContext),
      GoodRC rc → valid_run uid rc ans = true →
      ∀ rc', run_from uid rc ans = some rc' → GoodRC rc' := by
  intro ans
  induction ans with
  | nil =>
    intro rc hg _ rc' h
    rw [run_from] at h
    injection h with h1
    rw [← h1]
    exact hg
  | cons a rest ih =>
    intro rc hg hv rc' h
    rw [valid_run] at hv
    obtain ⟨hv12, hv3⟩ := (Bool.and_eq_true _ _).mp hv
    obtain ⟨hva, hvs⟩ := (Bool.and_eq_true _ _).mp hv12
    have ha : a ≠ "" := by
      intro hae
      rw [hae] at hva
      simp at hva
    obtain ⟨nxt, hnxt⟩ := Option.isSome_iff_exists.mp hvs
    obtain ⟨rc₀, hrc₀, hg₀, _⟩ := run_step_good uid rc a hg ha nxt hnxt
    rw [run_from, hrc₀] at h
    rw [hrc₀] at hv3
    exact ih rc₀ hg₀ hv3 rc' h

/-- C5 amended: for every valid answer sequence (starting with an empty
node id, then always answering with an option in the current node's
transition map), the terminal recommendation node is reached exactly when
the journey length is 5 — root, three question nodes, and the
recommendation node — not 4 as the claim (and the code's `max_steps`
comments) state. -/
theorem journey_length_at_recommendation :
    ∀ (uid : Nat) (answers : List String) (rc : DecisionTreeResponse × TreeContext),
      valid_session uid answers = true →
      run_session uid answers = some rc →
      (rc.1.node.type = "recommendation" ↔ rc.2.journey.length = 5) := by
  intro uid answers rc hv h
  rw [valid_session] at hv
  rw [run_session] at h
  cases h0 : process_step { user_id := uid } with
  | none =>
    rw [h0] at h
    exact Option.noConfusion h
  | some rc₀ =>
    rw [h0] at h hv
    have hg₀ := run_init_good uid rc₀ h0
    obtain ⟨hin, hlen⟩ := run_from_good uid answers rc₀ hg₀ hv rc h
    have hiff := decisionTree_rec_iff_depth _ (alookup_mem hin)
    dsimp only at hiff
    constructor
    · intro ht
      have hd := hiff.mp ht
      omega
    · intro hl
      apply hiff.mpr
      omega

/-- C5 counterexample: the complete valid emergency-fund run reaches the
recommendation node with journey length 5, not the claimed 4. -/
theorem journey_length_counterexample :
    valid_session 1 ["emergency_fund", "short", "three", "automatic"] = true ∧
    (run_session 1 ["emergency_fund", "short", "three", "automatic"]).map
      (fun rc => (rc.1.node.type, rc.2.journey.length)) = some ("recommendation", 5) := by
  constructor
  · decide
  · decide

/-- Witness for C5: the emergency-fund run instantiates the amended
theorem. -/
theorem journey_length_at_recommendation_witness :
    (run_session 1 ["emergency_fund", "short", "three", "automatic"]).elim False
      (fun rc => rc.1.node.type = "recommendation" ↔ rc.2.journey.length = 5) := by
  cases hrun : run_session 1 ["emergency_fund", "short", "three", "automatic"] with
  | none => exact absurd hrun (by decide)
  | some rc =>
    simp only [Option.elim]
    exact journey_length_at_recommendation 1 ["emergency_fund", "short", "three", "automatic"]
      rc (by decide) hrun

theorem emergency_fund_recommendations_shape (t a m : String) :
    generate_emergency_fund_recommendations t a m ≠ [] ∧
    (generate_emergency_fund_recommendations t a m).countP
      (fun r => r.id == "emergency_fund_base") = 1 ∧
    (generate_emergency_fund_recommendations t a m).countP
      (fun r => r.id == "emergency_fund_location") = 1 := by
  unfold generate_emergency_fund_recommendations
  refine ⟨?_, ?_, ?_⟩ <;> split_ifs <;> simp [List.countP_cons, List.countP_append]

theorem debt_reduction_recommendations_shape (d t s : String) :
    generate_debt_reduction_recommendations d t s ≠ [] ∧
    (generate_debt_reduction_recommendations d t s).countP
      (fun r => r.id == "debt_reduction_base") = 1 ∧
    (generate_debt_reduction_recommendations d t s).countP
      (fun r => r.id == "debt_budget_discipline") = 1 := by
  unfold generate_debt_reduction_recommendations
  refine ⟨?_, ?_, ?_⟩ <;> split_ifs <;> simp [List.countP_cons, List.countP_append]

theorem home_purchase_recommendations_shape (t d b : String) :
    generate_home_purchase_recommendations t d b ≠ [] ∧
    (generate_home_purchase_recommendations t d b).countP
      (fun r => r.id == "home_purchase_base") = 1 ∧
    (generate_home_purchase_recommendations t d b).countP
      (fun r => r.id == "home_purchase_preparation") = 1 := by
  unfold generate_home_purchase_recommendations
  refine ⟨?_, ?_, ?_⟩ <;> split_ifs <;> simp [List.countP_cons, List.countP_append]

theorem retirement_recommendations_shape (r c v : String) :
    generate_retirement_recommendations r c v ≠ [] ∧
    (generate_retirement_recommendations r c v).countP
      (fun x => x.id == "retirement_base") = 1 ∧
    (generate_retirement_recommendations r c v).countP
      (fun x => x.id == "retirement_diversification") = 1 := by
  unfold generate_retirement_recommendations
  refine ⟨?_, ?_, ?_⟩ <;> split_ifs <;> simp [List.countP_cons, List.countP_append]

theorem education_recommendations_shape (t e c : String) :
    generate_education_recommendations t e c ≠ [] ∧
    (generate_education_recommendations t e c).countP
      (fun r => r.id == "education_base") = 1 := by
  unfold generate_education_recommendations
  refine ⟨?_, ?_⟩ <;> split_ifs <;> simp [List.countP_cons, List.countP_append]

theorem vacation_recommendations_shape (t c m : String) :
    generate_vacation_recommendations t c m ≠ [] ∧
    (generate_vacation_recommendations t c m).countP
      (fun r => r.id == "vacation_base") = 1 ∧
    (generate_vacation_recommendations t c m).countP
      (fun r => r.id == "vacation_budget_management") = 1 := by
  unfold generate_vacation_recommendations
  refine ⟨?_, ?_, ?_⟩ <;> split_ifs <;> simp [List.countP_cons, List.countP_append]

theorem other_goal_recommendations_shape (a t p : String) :
    generate_other_goal_recommendations a t p ≠ [] ∧
    (generate_other_goal_recommendations a t p).countP
      (fun r => r.id == "other_goal_base") = 1 ∧
    (generate_other_goal_recommendations a t p).countP
      (fun r => r.id == "other_goal_tracking") = 1 := by
  unfold generate_other_goal_recommendations
  refine ⟨?_, ?_, ?_⟩ <;> split_ifs <;> simp [List.countP_cons, List.countP_append]
/-- C7 amended: when `_generate_recommendations` runs with a non-empty
journey and the root answered with one of the seven goal ids, the list is
non-empty and contains exactly one base recommendation; for every goal
except education it also contains exactly one recommendation common to
every path of that goal (`emergency_fund_location` for the emergency-fund
goal); the education generator appends no such common recommendation; and
when the per-goal generator raises internally the result is instead
exactly the one fixed generic fallback recommendation. -/
theorem recommendation_list_shape :
    ∀ (journey : List String) (answers : List (String × String)) (g : String),
      journey ≠ [] →
      alookup "root" answers = some g →
      (g = "emergency_fund" ∨ g = "debt_reduction" ∨ g = "home_purchase" ∨ g = "retirement" ∨
       g = "education" ∨ g = "vacation" ∨ g = "other") →
      generate_recommendations journey answers ≠ [] ∧
      (generate_recommendations journey answers).countP
        (fun r => r.id == goal_base_id g) = 1 ∧
      (∀ c, goal_common_id g = some c →
        (generate_recommendations journey answers).countP (fun r => r.id == c) = 1) ∧
      generate_recommendations_with (fun _ _ => .error ()) journey answers =
        [error_fallback_recommendation] := by
  intro journey answers g hj hroot hgoals
  have hja : ¬(journey.isEmpty ∨ answers.isEmpty) := by
    rintro (h1 | h2)
    · exact hj (List.isEmpty_iff.mp h1)
    · exact alookup_ne_nil hroot (List.isEmpty_iff.mp h2)
  have hgen : generate_recommendations journey answers = goal_recommendations g answers := by
    unfold generate_recommendations generate_recommendations_with
    rw [if_neg hja, hroot]
  have hfall : generate_recommendations_with (fun _ _ => .error ()) journey answers =
      [error_fallback_recommendation] := by
    unfold generate_recommendations_with
    rw [if_neg hja, hroot]
  rw [hgen]
  rcases hgoals with rfl | rfl | rfl | rfl | rfl | rfl | rfl <;>
    simp only [goal_recommendations, goal_base_id, goal_common_id,
      eq_self_iff_true, if_true, if_pos rfl, if_neg (by decide : ¬("debt_reduction" = "emergency_fund")),
      if_neg (by decide : ¬("home_purchase" = "emergency_fund")),
      if_neg (by decide : ¬("home_purchase" = "debt_reduction")),
      if_neg (by decide : ¬("retirement" = "emergency_fund")),
      if_neg (by decide : ¬("retirement" = "debt_reduction")),
      if_neg (by decide : ¬("retirement" = "home_purchase")),
      if_neg (by decide : ¬("education" = "emergency_fund")),
      if_neg (by decide : ¬("education" = "debt_reduction")),
      if_neg (by decide : ¬("education" = "home_purchase")),
      if_neg (by decide : ¬("education" = "retirement")),
      if_neg (by decide : ¬("vacation" = "emergency_fund")),
      if_neg (by decide : ¬("vacation" = "debt_reduction")),
      if_neg (by decide : ¬("vacation" = "home_purchase")),
      if_neg (by decide : ¬("vacation" = "retirement")),
      if_neg (by decide : ¬("vacation" = "education")),
      if_neg (by decide : ¬("other" = "emergency_fund")),
      if_neg (by decide : ¬("other" = "debt_reduction")),
      if_neg (by decide : ¬("other" = "home_purchase")),
      if_neg (by decide : ¬("other" = "retirement")),
      if_neg (by decide : ¬("other" = "education")),
      if_neg (by decide : ¬("other" = "vacation"))]
  · exact ⟨(emergency_fund_recommendations_shape _ _ _).1,
      (emergency_fund_recommendations_shape _ _ _).2.1,
      fun c hc => by
        injection hc with hc1
        rw [← hc1]
        exact (emergency_fund_recommendations_shape _ _ _).2.2, hfall⟩
  · exact ⟨(debt_reduction_recommendations_shape _ _ _).1,
      (debt_reduction_recommendations_shape _ _ _).2.1,
      fun c hc => by
        injection hc with hc1
        rw [← hc1]
        exact (debt_reduction_recommendations_shape _ _ _).2.2, hfall⟩
  · exact ⟨(home_purchase_recommendations_shape _ _ _).1,
      (home_purchase_recommendations_shape _ _ _).2.1,
      fun c hc => by
        injection hc with hc1
        rw [← hc1]
        exact (home_purchase_recommendations_shape _ _ _).2.2, hfall⟩
  · exact ⟨(retirement_recommendations_shape _ _ _).1,
      (retirement_recommendations_shape _ _ _).2.1,
      fun c hc => by
        injection hc with hc1
        rw [← hc1]
        exact (retirement_recommendations_shape _ _ _).2.2, hfall⟩
  · exact ⟨(education_recommendations_shape _ _ _).1,
      (education_recommendations_shape _ _ _).2,
      fun c hc => Option.noConfusion hc, hfall⟩
  · exact ⟨(vacation_recommendations_shape _ _ _).1,
      (vacation_recommendations_shape _ _ _).2.1,
      fun c hc => by
        injection hc with hc1
        rw [← hc1]
        exact (vacation_recommendations_shape _ _ _).2.2, hfall⟩
  · exact ⟨(other_goal_recommendations_shape _ _ _).1,
      (other_goal_recommendations_shape _ _ _).2.1,
      fun c hc => by
        injection hc with hc1
        rw [← hc1]
        exact (other_goal_recommendations_shape _ _ _).2.2, hfall⟩
/-- C7 counterexample, three parts.  (1) Reaching `ef_recommendation`
with the root answered but an empty journey returns an empty
recommendation list.  (2) Reaching it with the root answered by a
non-goal string also returns an empty list.  (3) A complete valid
education run ends with exactly `[education_base]` — one base and no
separate common recommendation — so "non-empty ... exactly one base and
exactly one common" fails as stated. -/
theorem recommendation_list_counterexample :
    (process_step
        { user_id := 1, current_node_id := some "ef_recommendation",
          context := { answers := [("root", "emergency_fund")] } }).map
      (fun rc => (rc.1.node.type, rc.1.recommendations.length)) =
      some ("recommendation", 0) ∧
    (process_step
        { user_id := 1, current_node_id := some "ef_recommendation",
          context := { journey := ["root"], answers := [("root", "banana")] } }).map
      (fun rc => (rc.1.node.type, rc.1.recommendations.length)) =
      some ("recommendation", 0) ∧
    (process_step
        { user_id := 1, current_node_id := some "education_cost", answer := some "small",
          context := { journey := ["root", "education_timeframe", "education_type",
                                   "education_cost"],
                       answers := [("root", "education"), ("education_timeframe", "medium"),
                                   ("education_type", "courses")] } }).map
      (fun rc => (rc.1.node.type, rc.1.recommendations.map (fun r => r.id))) =
      some ("recommendation", ["education_base"]) := by
  refine ⟨by decide, by decide, by decide⟩

/-- Witness for C7 at the emergency-fund goal with journey `["root"]`. -/
theorem recommendation_list_shape_witness :
    generate_recommendations ["root"] [("root", "emergency_fund")] ≠ [] ∧
    (generate_recommendations ["root"] [("root", "emergency_fund")]).countP
      (fun r => r.id == goal_base_id "emergency_fund") = 1 ∧
    (∀ c, goal_common_id "emergency_fund" = some c →
      (generate_recommendations ["root"] [("root", "emergency_fund")]).countP
        (fun r => r.id == c) = 1) ∧
    generate_recommendations_with (fun _ _ => .error ()) ["root"]
      [("root", "emergency_fund")] = [error_fallback_recommendation] :=
  recommendation_list_shape ["root"] [("root", "emergency_fund")] "emergency_fund"
    (by decide) rfl (Or.inl rfl)

/-- Witness for C10: the root is a question node of the tree, its
transition for "emergency_fund" targets "ef_timeframe", and that target is
a key of the tree. -/
theorem decision_tree_closed_witness :
    (alookup "ef_timeframe" decisionTree).isSome = true :=
  decision_tree_closed (decisionTree.headD default) (by decide) (by decide)
    ("emergency_fund", "ef_timeframe") (by decide)

/-- `float("1000") == 1000.0`: evaluation of the rational-valued float
parser at the cleaned numeric answer. -/
theorem parseFloat_1000 : parseFloat "1000" = some 1000 := by
  have h : parseFloat "1000" =
      some ((1 : ℚ) * ((digitsToNat ['1', '0', '0', '0'] : ℚ) +
        (digitsToNat ([] : List Char) : ℚ) / (10 : ℚ) ^ (0 : Nat))) := rfl
  have hd : digitsToNat ['1', '0', '0', '0'] = 1000 := by decide
  have hd0 : digitsToNat ([] : List Char) = 0 := rfl
  rw [h, hd, hd0]
  norm_num

/-- C8: numeric field parsing in `UserProfileForm.process_answer`.  For
any form state whose current field is a number field (no option set,
`type == "number"`), the input "abc" is rejected: the numeric-format error
message plus the original question is returned and the state — stored
values and cursor alike — is unchanged.  On the fresh form (current field
`age`, a number field), "1 000 zł" and "1000" both store the float 1000.0
and advance the cursor by exactly one field, to `country`. -/
theorem process_answer_number_parsing :
    (∀ st : UserProfileForm, st.is_complete = false →
      st.current_field_index < form_fields.length →
      (form_fields.getD st.current_field_index
        { name := "", question := "", required := true }).options = none →
      (form_fields.getD st.current_field_index
        { name := "", question := "", required := true }).ftype = some "number" →
      process_answer st "abc" =
        ("Proszę podać wartość liczbową." ++ "\n" ++
          (form_fields.getD st.current_field_index
            { name := "", question := "", required := true }).question, st)) ∧
    process_answer {} "1 000 zł" =
      ("W jakim kraju mieszkasz?",
       { values := [("age", .num 1000)], current_field_index := 1 }) ∧
    process_answer {} "1000" =
      ("W jakim kraju mieszkasz?",
       { values := [("age", .num 1000)], current_field_index := 1 }) := by
  refine ⟨fun st h1 h2 h3 h4 => ?_, ?_, ?_⟩
  · have habc : parseFloat (strReplace (strReplace (strReplace
        (strReplace "abc" "zł" "") "PLN" "") " " "") "," ".") = none := by decide
    simp only [process_answer, h1, h3, h4, Bool.false_eq_true, if_false,
      if_neg (Nat.not_le.mpr h2), habc, if_true]
  · have hclean : strReplace (strReplace (strReplace
        (strReplace "1 000 zł" "zł" "") "PLN" "") " " "") "," "." = "1000" := by decide
    simp only [process_answer]
    norm_num [hclean, parseFloat_1000]
    decide
  · have hclean : strReplace (strReplace (strReplace
        (strReplace "1000" "zł" "") "PLN" "") " " "") "," "." = "1000" := by decide
    simp only [process_answer]
    norm_num [hclean, parseFloat_1000]
    decide

/-- Witness for C8: the fresh form's current field (`age`) is a number
field, and "abc" is rejected there with the numeric error message, an
unchanged state and the original question re-asked. -/
theorem process_answer_number_parsing_witness :
    process_answer {} "abc" =
      ("Proszę podać wartość liczbową." ++ "\n" ++ "Ile masz lat?",
       ({} : UserProfileForm)) :=
  process_answer_number_parsing.1 {} (by decide) (by decide) (by decide) (by decide)

end FinApp
